import Mathlib

/-!
# FTP caching proxy: shallow embedding of `src/main.c`

Bytes are natural numbers, C `int`s are integers, buffers are lists of bytes.
The variables of `main`, the set `master_set`, the files of the cache directory
and the system calls made so far form the `State`. System calls whose outcome
depends on the outside world take that outcome from an `Env` record.

Each handler is the body of one `if (i == ...)` statement of the loop of
`main`. A handler ends in `Res.ok` with the next state, in `Res.exit` when the
process exits, in `Res.undef` when C leaves the behaviour undefined (a string
without terminator, a write past the end of an array, a variable read before
it was assigned) and in `Res.hang` when a loop runs out of the fuel it was
given.
-/

namespace FtpProxy

/-! ## Bytes, buffers and C strings -/

/-- The bytes of an ASCII string literal. -/
def bytes (s : String) : List Nat := s.toList.map Char.toNat

/-- `#define BUFFSIZE 2048` -/
def BUFFSIZE : Nat := 2048

/-- `INT_MAX` of a 32-bit `int`. -/
def INT_MAX : Int := 2147483647

/-- `INT_MIN` of a 32-bit `int`. -/
def INT_MIN : Int := -2147483648

/-- Two's-complement wrap-around of 32-bit `int` arithmetic. -/
def wrap32 (x : Int) : Int := (x + 2147483648) % 4294967296 - 2147483648

/-- `htons`: the argument converted to an unsigned 16-bit port number. -/
def htons (port : Int) : Int := port % 65536

/-- The characters of the C string stored at the start of a buffer:
everything before the first NUL byte. -/
def cstr (buf : List Nat) : List Nat := buf.takeWhile (fun b => b ≠ 0)

/-- Whether the buffer holds a NUL byte, so that the string in it ends inside
the buffer. -/
def terminated (buf : List Nat) : Bool := decide (0 ∈ buf)

/-- `isspace` of the C locale. -/
def isspace (c : Nat) : Bool := decide (c = 32) || (decide (9 ≤ c) && decide (c ≤ 13))

/-- `isdigit`. -/
def isdigit (c : Nat) : Bool := decide (48 ≤ c) && decide (c ≤ 57)

/-! ## `printf`-style formatting -/

/-- Decimal digits of `n`, most significant first, pushed in front of `acc`. -/
def fmtNatAux : Nat → Nat → List Nat → List Nat
  | 0, _, acc => acc
  | fuel + 1, n, acc =>
    if n / 10 = 0 then (48 + n % 10) :: acc
    else fmtNatAux fuel (n / 10) ((48 + n % 10) :: acc)

/-- Decimal rendering of a natural number. -/
def fmtNat (n : Nat) : List Nat := fmtNatAux (n + 1) n []

/-- What `%d` prints for an `int`. -/
def fmtInt (v : Int) : List Nat :=
  if v < 0 then 45 :: fmtNat v.natAbs else fmtNat v.toNat

/-- An argument of `sprintf`. -/
inductive Arg where
  | int (v : Int)
  | str (s : List Nat)
  deriving DecidableEq

/-- The characters `sprintf` produces for a format with `%d` and `%s`
directives. -/
def sprintf : List Nat → List Arg → List Nat
  | [], _ => []
  | [c], _ => [c]
  | c :: d :: rest, args =>
    if c = 37 ∧ d = 100 then
      match args with
      | Arg.int v :: args2 => fmtInt v ++ sprintf rest args2
      | _ => sprintf rest args
    else if c = 37 ∧ d = 115 then
      match args with
      | Arg.str t :: args2 => t ++ sprintf rest args2
      | _ => sprintf rest args
    else c :: sprintf (d :: rest) args

/-! ## `sscanf` -/

/-- One directive of a `sscanf` format. -/
inductive Directive where
  | space
  | lit (c : Nat)
  | int
  deriving DecidableEq

/-- Reading of a format string: `%d` converts an integer, white space stands
for any run of white space, every other character stands for itself. -/
def directives : List Nat → List Directive
  | [] => []
  | [c] => [if isspace c then Directive.space else Directive.lit c]
  | c :: d :: rest =>
    if c = 37 ∧ d = 100 then Directive.int :: directives rest
    else (if isspace c then Directive.space else Directive.lit c) :: directives (d :: rest)

/-- Outcome of one `%d` conversion. -/
inductive Conv where
  | ok (v : Int) (rest : List Nat)
  | fail
  | overflow
  deriving DecidableEq

/-- Value of a run of decimal digits. -/
def digitsValue (ds : List Nat) : Nat := ds.foldl (fun a d => a * 10 + (d - 48)) 0

/-- An optional sign in front of the digits of a number. -/
def scanSign : List Nat → Bool × List Nat
  | [] => (false, [])
  | c :: t => if c = 45 then (true, t) else if c = 43 then (false, t) else (false, c :: t)

/-- The `%d` conversion: leading white space is skipped, then an optional sign
and a non-empty run of digits are read. A value outside the range of `int` is
reported as `overflow`. -/
def scanInt (input : List Nat) : Conv :=
  let signed := scanSign (input.dropWhile isspace)
  let ds := signed.2.takeWhile isdigit
  if ds = [] then Conv.fail
  else
    let v : Int := if signed.1 then -(digitsValue ds : Int) else (digitsValue ds : Int)
    if INT_MIN ≤ v ∧ v ≤ INT_MAX then Conv.ok v (signed.2.dropWhile isdigit) else Conv.overflow

/-- The values `sscanf` assigns, in order, before the input stops matching the
format; `none` when a conversion overflows `int`. -/
def sscanfDirs : List Directive → List Nat → Option (List Int)
  | [], _ => some []
  | Directive.space :: ds, input => sscanfDirs ds (input.dropWhile isspace)
  | Directive.lit c :: ds, input =>
    match input with
    | [] => some []
    | x :: rest => if x = c then sscanfDirs ds rest else some []
  | Directive.int :: ds, input =>
    match scanInt input with
    | Conv.ok v rest => (sscanfDirs ds rest).map (fun vs => v :: vs)
    | Conv.fail => some []
    | Conv.overflow => none

/-- The call `sscanf(str, format, ...)` on a NUL-terminated buffer. -/
def sscanf (buf : List Nat) (format : List Nat) : Option (List Int) :=
  sscanfDirs (directives format) (cstr buf)

/-! ## The state of the program -/

/-- A system call with an effect visible outside the process, with the
arguments the program passed and the descriptor it got back: `bindListen port
fd` is `bind` to `port` followed by `listen`, `connect host port fd` a
connection to the address `host` resolved to. -/
inductive Sys where
  | write (fd : Int) (data : List Nat)
  | close (fd : Int)
  | bindListen (port : Int) (fd : Int)
  | accept (listener : Int) (fd : Int)
  | connect (host : List Nat) (port : Int) (fd : Int)
  deriving DecidableEq

/-- The command line: `argv[1]` and the four numbers read from `argv[2]`. -/
structure Config where
  server_address : List Nat
  proxy_address_0 : Int
  proxy_address_1 : Int
  proxy_address_2 : Int
  proxy_address_3 : Int

/-- What a path names: a regular file with its bytes, or a directory, such as
the one that `mkdir("cache", 0775)` creates at the start of `main`. -/
inductive Node where
  | file (content : List Nat)
  | dir
  deriving DecidableEq

/-- The bytes of the regular file a path names; none when the path is absent
or names a directory. -/
def fileContent : Option Node → List Nat
  | some (Node.file content) => content
  | some Node.dir => []
  | none => []

/-- The local variables of `main` that live across iterations of the loop,
what the paths below the working directory name and the system calls made so
far. -/
structure State where
  proxy_cmd_socket : Int
  client_command_socket : Int
  server_command_socket : Int
  proxy_data_socket : Int
  income_data_socket : Int
  outcome_data_socket : Int
  mode : Int
  waiting_for_server_data_port : Int
  cache_file_path : List Nat
  cache_hit : Int
  should_send_cache_file : Int
  should_save_cache_file : Int
  file_transfer_mode : Int
  active_client_data_port : Int
  passive_server_data_port : Int
  master_set : List Int
  fs : List Nat → Option Node
  trace : List Sys

/-- What `read` returned: `-1`, or the bytes received (none of them at end of
stream). -/
inductive ReadResult where
  | error
  | data (chunk : List Nat)
  deriving DecidableEq

/-- Outcomes of the system calls of one handler that the program does not
control. -/
structure Env where
  rd : ReadResult
  listening : Option Int
  accepted : Option Int
  resolved : Bool
  connected : Option Int
  fopen_r : Bool
  fopen_a : Bool

/-- How a piece of the program ends. -/
inductive Res (α : Type) where
  | ok (a : α)
  | exit (code : Int)
  | undef
  | hang

/-- Sequencing of two pieces of the program. -/
def Res.bind {α β : Type} (r : Res α) (f : α → Res β) : Res β :=
  match r with
  | Res.ok a => f a
  | Res.exit c => Res.exit c
  | Res.undef => Res.undef
  | Res.hang => Res.hang

/-- `FD_SET(fd, &master_set)` -/
def FD_SET (fd : Int) (s : State) : State :=
  { s with master_set := if fd ∈ s.master_set then s.master_set else s.master_set ++ [fd] }

/-- `FD_CLR(fd, &master_set)` -/
def FD_CLR (fd : Int) (s : State) : State :=
  { s with master_set := s.master_set.filter (fun x => x ≠ fd) }

/-- `close(fd)` -/
def close (fd : Int) (s : State) : State :=
  { s with trace := s.trace ++ [Sys.close fd] }

/-- `write(fd, data, n)` with all `n` bytes accepted. -/
def write (fd : Int) (data : List Nat) (s : State) : State :=
  { s with trace := s.trace ++ [Sys.write fd data] }

/-! ## The socket layer -/

/-- `bind_and_listen_socket`: the process exits with status 1 when `socket`
or `bind` fails; the port bound is the argument passed through `htons`. -/
def bind_and_listen_socket (env : Env) (port_number : Int) (s : State) : Res (Int × State) :=
  match env.listening with
  | none => Res.exit 1
  | some fd => Res.ok (fd, { s with trace := s.trace ++ [Sys.bindListen (htons port_number) fd] })

/-- `accept_connection`: exits with status 1 when `accept` fails. -/
def accept_connection (env : Env) (sockfd : Int) (s : State) : Res (Int × State) :=
  match env.accepted with
  | none => Res.exit 1
  | some fd => Res.ok (fd, { s with trace := s.trace ++ [Sys.accept sockfd fd] })

/-- `create_connection`: exits with status 1 when `socket` or `connect` fails.
The address is kept as the host name it was resolved from and the port in
network byte order. -/
def create_connection (env : Env) (host_name : List Nat) (port : Int) (s : State) :
    Res (Int × State) :=
  match env.connected with
  | none => Res.exit 1
  | some fd => Res.ok (fd, { s with trace := s.trace ++ [Sys.connect host_name port fd] })

/-- `create_connection_by_host_name`: exits with status 0 when the host name
does not resolve, and otherwise connects to the resolved address and
`htons(port)`. -/
def create_connection_by_host_name (env : Env) (host_name : List Nat) (port : Int) (s : State) :
    Res (Int × State) :=
  if env.resolved = false then Res.exit 0
  else create_connection env host_name (htons port) s

/-- `send_to_server`: writes the `strlen(buffer)` bytes of the C string. -/
def send_to_server (socket_fd : Int) (buffer : List Nat) (s : State) : State :=
  write socket_fd (cstr buffer) s

/-- `send_to_client`: writes the `strlen(buffer)` bytes of the C string. -/
def send_to_client (socket_fd : Int) (buffer : List Nat) (s : State) : State :=
  write socket_fd (cstr buffer) s

/-! ## Reading from a socket -/

/-- The return value of `read(fd, buff, BUFFSIZE)`. -/
def readSize (rd : ReadResult) : Int :=
  match rd with
  | ReadResult.error => -1
  | ReadResult.data chunk => ((chunk.take BUFFSIZE).length : Int)

/-- The bytes that `read(fd, buff, BUFFSIZE)` stored. -/
def readBytes (rd : ReadResult) : List Nat :=
  match rd with
  | ReadResult.error => []
  | ReadResult.data chunk => chunk.take BUFFSIZE

/-- The array `char buff[BUFFSIZE] = {0}` after `read(fd, buff, BUFFSIZE)`. -/
def readBuff (rd : ReadResult) : List Nat :=
  readBytes rd ++ List.replicate (BUFFSIZE - (readBytes rd).length) 0

/-! ## The client command socket -/

/-- `strncpy(dst, src, n)`: the first `n` characters of the string, padded
with NUL bytes to `n` bytes. -/
def strncpy (src : List Nat) (n : Nat) : List Nat :=
  (cstr src).take n ++ List.replicate (n - ((cstr src).take n).length) 0

/-- The array `command[5]` after `strncpy(command, buff, 4)`,
`command[4] = 0` and the replacement of a blank in `command[3]`. -/
def commandOf (buff : List Nat) : List Nat :=
  let command := strncpy buff 4 ++ [0]
  if command.getD 3 0 = 32 then command.set 3 0 else command

/-- The loop over `cache_file_path` that overwrites the first line feed or
carriage return before the end of the string with NUL and stops. -/
def cutAtEol : List Nat → List Nat
  | [] => []
  | b :: rest =>
    if b = 0 then b :: rest
    else if b = 10 ∨ b = 13 then 0 :: rest
    else b :: cutAtEol rest

/-- The array `cache_file_path[100]` after `memset`, `sprintf("cache/%s",
buff + 5)` and the loop cutting the line end; `none` when `sprintf` writes
past the end of the array. -/
def cachePathOf (buff : List Nat) : Option (List Nat) :=
  let filename := cstr (buff.drop 5)
  let text := sprintf (bytes "cache/%s") [Arg.str filename]
  if 100 < text.length + 1 then none
  else some (cutAtEol (text ++ List.replicate (100 - text.length) 0))

/-- The test `access(cache_file_path, F_OK) != -1` and the three flags set
from it. -/
def checkCache (s : State) : State :=
  if (s.fs (cstr s.cache_file_path)).isSome then
    { s with cache_hit := 1, should_send_cache_file := 1, should_save_cache_file := 0 }
  else
    { s with cache_hit := 0, should_send_cache_file := 0, should_save_cache_file := 1 }

/-- The `PORT` branch. -/
def portBranch (cfg : Config) (env : Env) (buff : List Nat) (s : State) : Res State :=
  let s := { s with mode := 0 }
  match sscanf buff (bytes "PORT %d,%d,%d,%d,%d,%d") with
  | some [_, _, _, _, p0, p1] =>
    let s := { s with active_client_data_port := wrap32 (p0 * 256 + p1) }
    let s := if s.proxy_data_socket > 0 then close s.proxy_data_socket (FD_CLR s.proxy_data_socket s)
      else s
    (bind_and_listen_socket env s.active_client_data_port s).bind fun r =>
      let s := FD_SET r.1 { r.2 with proxy_data_socket := r.1 }
      let command := sprintf (bytes "PORT %d,%d,%d,%d,%d,%d\n")
        [Arg.int cfg.proxy_address_0, Arg.int cfg.proxy_address_1, Arg.int cfg.proxy_address_2,
          Arg.int cfg.proxy_address_3, Arg.int p0, Arg.int p1]
      if 100 < command.length + 1 then Res.undef
      else Res.ok (send_to_server s.server_command_socket (command ++ [0]) s)
  | _ => Res.undef

/-- The `PASV` branch. -/
def pasvBranch (buff : List Nat) (s : State) : Res State :=
  let s := { s with mode := 1, waiting_for_server_data_port := 1 }
  Res.ok (send_to_server s.server_command_socket buff s)

/-- The `RETR` branch. -/
def retrBranch (buff : List Nat) (s : State) : Res State :=
  let s := { s with file_transfer_mode := 0 }
  match cachePathOf buff with
  | none => Res.undef
  | some path =>
    let s := checkCache { s with cache_file_path := path }
    Res.ok (send_to_server s.server_command_socket buff s)

/-- The `STOR` branch. -/
def storBranch (buff : List Nat) (s : State) : Res State :=
  let s := { s with file_transfer_mode := 1 }
  match cachePathOf buff with
  | none => Res.undef
  | some path =>
    let s := checkCache { s with cache_file_path := path }
    Res.ok (send_to_server s.server_command_socket buff s)

/-- The body of `if (i == client_command_socket)`. A buffer without a NUL
byte makes the `%s` of the first `printf` read past its end. -/
def clientCommandHandler (cfg : Config) (env : Env) (s : State) : Res State :=
  let buff := readBuff env.rd
  if readSize env.rd = 0 then
    Res.ok (close s.server_command_socket (FD_CLR s.server_command_socket
      (close s.client_command_socket (FD_CLR s.client_command_socket s))))
  else if terminated buff = false then Res.undef
  else if cstr (commandOf buff) = bytes "PORT" then portBranch cfg env buff s
  else if cstr (commandOf buff) = bytes "PASV" then pasvBranch buff s
  else if cstr (commandOf buff) = bytes "RETR" then retrBranch buff s
  else if cstr (commandOf buff) = bytes "STOR" then storBranch buff s
  else Res.ok (send_to_server s.server_command_socket buff s)

/-! ## The server command socket -/

/-- The `227` branch: the reply is parsed, the data listener is replaced by
one on the announced port and the reply is rewritten into `response[60]`. -/
def pasvReplyBranch (cfg : Config) (env : Env) (buff : List Nat) (s : State) : Res State :=
  match sscanf buff (bytes "227 Entering Passive Mode (%d,%d,%d,%d,%d,%d)") with
  | some [_, _, _, _, p0, p1] =>
    let s := { s with passive_server_data_port := wrap32 (p0 * 256 + p1),
                      waiting_for_server_data_port := 0 }
    let s := if s.proxy_data_socket > 0 then close s.proxy_data_socket (FD_CLR s.proxy_data_socket s)
      else s
    (bind_and_listen_socket env s.passive_server_data_port s).bind fun r =>
      let s := FD_SET r.1 { r.2 with proxy_data_socket := r.1 }
      let response := sprintf (bytes "227 Entering Passive Mode (%d,%d,%d,%d,%d,%d)\n")
        [Arg.int cfg.proxy_address_0, Arg.int cfg.proxy_address_1, Arg.int cfg.proxy_address_2,
          Arg.int cfg.proxy_address_3, Arg.int p0, Arg.int p1]
      if 60 < response.length + 1 then Res.undef
      else Res.ok (send_to_client s.client_command_socket (response ++ [0]) s)
  | _ => Res.undef

/-- The body of `if (i == server_command_socket)`. -/
def serverCommandHandler (cfg : Config) (env : Env) (s : State) : Res State :=
  let buff := readBuff env.rd
  if readSize env.rd = 0 then
    Res.ok (close s.client_command_socket (FD_CLR s.client_command_socket
      (close s.server_command_socket (FD_CLR s.server_command_socket s))))
  else if terminated buff = false then Res.undef
  else if s.mode = 1 ∧ s.waiting_for_server_data_port = 1 ∧ (cstr buff).take 3 = bytes "227" then
    pasvReplyBranch cfg env buff s
  else Res.ok (send_to_client s.client_command_socket buff s)

/-! ## The command listener -/

/-- The body of `if (i == proxy_cmd_socket)`. -/
def proxyCommandHandler (cfg : Config) (env : Env) (s : State) : Res State :=
  let s := if s.client_command_socket > 0 then
      close s.client_command_socket (FD_CLR s.client_command_socket s)
    else s
  let s := if s.server_command_socket > 0 then
      close s.server_command_socket (FD_CLR s.server_command_socket s)
    else s
  (accept_connection env s.proxy_cmd_socket s).bind fun a =>
    let s := { a.2 with client_command_socket := a.1 }
    (create_connection_by_host_name env cfg.server_address 21 s).bind fun c =>
      let s := { c.2 with server_command_socket := c.1 }
      Res.ok (FD_SET s.server_command_socket (FD_SET s.client_command_socket s))

/-! ## The data listener -/

/-- The loop `while (!feof(cache_file))`: each pass reads up to
`BUFFSIZE - 1` bytes with `fread` and writes what it read to the socket chosen
by `file_transfer_mode`. On a regular file the end-of-file indicator is set by
a read that returns fewer bytes than asked for; `rest` is the unread part of
the file. On a directory, which `fopen(..., "r")` opens, every `fread` fails:
it returns 0 and sets the error indicator, never the end-of-file indicator.
The loop tests `feof` alone, so it then writes 0 bytes in each pass and does
not end. -/
def replayLoop : Nat → Node → Option Int → State → Res State
  | 0, _, _, _ => Res.hang
  | fuel + 1, Node.dir, target, s =>
    let s := match target with
      | some fd => write fd [] s
      | none => s
    replayLoop fuel Node.dir target s
  | fuel + 1, Node.file rest, target, s =>
    let chunk := rest.take (BUFFSIZE - 1)
    let s := match target with
      | some fd => write fd chunk s
      | none => s
    if chunk.length < BUFFSIZE - 1 then Res.ok s
    else replayLoop fuel (Node.file (rest.drop (BUFFSIZE - 1))) target s

/-- The statement `if (should_send_cache_file && cache_hit) ... else ...`
after both data sockets are open. `download` and `upload` are the sockets
written to when `file_transfer_mode` is 0 and 1. `fopen(..., "r")` returns a
stream for a regular file and for a directory alike, unless the environment
makes it fail. -/
def sendCacheOrRegister (env : Env) (fuel : Nat) (download upload : Int) (s : State) : Res State :=
  if s.should_send_cache_file ≠ 0 ∧ s.cache_hit ≠ 0 then
    let opened := if env.fopen_r then s.fs (cstr s.cache_file_path) else none
    let r := match opened with
      | some node =>
        let target := if s.file_transfer_mode = 0 then some download
          else if s.file_transfer_mode = 1 then some upload else none
        (replayLoop fuel node target s).bind fun s =>
          Res.ok (close s.outcome_data_socket (close s.income_data_socket s))
      | none => Res.ok (FD_SET s.outcome_data_socket (FD_SET s.income_data_socket s))
    r.bind fun s => Res.ok { s with should_send_cache_file := 0, cache_hit := 0 }
  else Res.ok (FD_SET s.outcome_data_socket (FD_SET s.income_data_socket s))

/-- The first two statements of the handler of the data listener: a data
socket whose variable is positive is removed from `master_set` and closed. -/
def closeDataSockets (s : State) : State :=
  let s := if s.income_data_socket > 0 then
      close s.income_data_socket (FD_CLR s.income_data_socket s)
    else s
  if s.outcome_data_socket > 0 then
    close s.outcome_data_socket (FD_CLR s.outcome_data_socket s)
  else s

/-- The rest of the handler of the data listener: the data connection is
accepted, the second one is opened to the host of the server, and the cached
file is sent or the two sockets are registered. -/
def openDataSockets (cfg : Config) (env : Env) (fuel : Nat) (s : State) : Res State :=
  if s.mode = 0 then
    (accept_connection env s.proxy_data_socket s).bind fun a =>
      let s := { a.2 with income_data_socket := a.1 }
      (create_connection_by_host_name env cfg.server_address s.active_client_data_port s).bind
        fun c =>
          let s := { c.2 with outcome_data_socket := c.1 }
          sendCacheOrRegister env fuel s.outcome_data_socket s.income_data_socket s
  else if s.mode = 1 then
    (accept_connection env s.proxy_data_socket s).bind fun a =>
      let s := { a.2 with income_data_socket := a.1 }
      (create_connection_by_host_name env cfg.server_address s.passive_server_data_port s).bind
        fun c =>
          let s := { c.2 with outcome_data_socket := c.1 }
          sendCacheOrRegister env fuel s.income_data_socket s.outcome_data_socket s
  else Res.ok s

/-- The body of `if (i == proxy_data_socket)`. -/
def dataListenerHandler (cfg : Config) (env : Env) (fuel : Nat) (s : State) : Res State :=
  openDataSockets cfg env fuel (closeDataSockets s)

/-! ## The data sockets -/

/-- The end-of-stream branch shared by both data sockets. -/
def dataEof (s : State) : State :=
  let s := close s.outcome_data_socket (FD_CLR s.outcome_data_socket
    (close s.income_data_socket (FD_CLR s.income_data_socket s)))
  if s.should_save_cache_file ≠ 0 then { s with should_save_cache_file := 0 } else s

/-- The statement `if (should_save_cache_file)`: the bytes are appended to the
file named by `cache_file_path`, which `fopen(..., "a")` creates when it is
absent; when the file cannot be opened (`opened` is false, as it is for a path
that names a directory) the flag is cleared. -/
def saveToCache (opened : Bool) (data : List Nat) (s : State) : State :=
  if s.should_save_cache_file ≠ 0 then
    if opened then
      { s with fs := fun q =>
          if q = cstr s.cache_file_path then
            some (Node.file (fileContent (s.fs (cstr s.cache_file_path)) ++ data))
          else s.fs q }
    else { s with should_save_cache_file := 0 }
  else s

/-- The body of `if (i == income_data_socket)`. A failed `read` makes the
following `write` take its byte count from `-1`. -/
def incomeDataHandler (env : Env) (s : State) : Res State :=
  if readSize env.rd = 0 then Res.ok (dataEof s)
  else if readSize env.rd < 0 then Res.undef
  else Res.ok (saveToCache env.fopen_a (readBytes env.rd)
    (write s.outcome_data_socket (readBytes env.rd) s))

/-- The body of `if (i == outcome_data_socket)`. -/
def outcomeDataHandler (env : Env) (s : State) : Res State :=
  if readSize env.rd = 0 then Res.ok (dataEof s)
  else if readSize env.rd < 0 then Res.undef
  else Res.ok (saveToCache env.fopen_a (readBytes env.rd)
    (write s.income_data_socket (readBytes env.rd) s))

/-! ## Runs of the handlers -/

/-- The handler of the data socket that became readable: of
`income_data_socket` when `fromIncome` is true, of `outcome_data_socket`
otherwise. -/
def dataHandler (fromIncome : Bool) (env : Env) (s : State) : Res State :=
  if fromIncome then incomeDataHandler env s else outcomeDataHandler env s

/-- One data socket becoming readable once for each of the given chunks, in
order, and then once more at the end of the stream. Each time only the handler
of that socket runs: its descriptor is open, so it differs from the other
descriptors the session holds. -/
def feed (fromIncome : Bool) (env : Env) : List (List Nat) → State → Res State
  | [], s => dataHandler fromIncome { env with rd := ReadResult.data [] } s
  | c :: cs, s =>
    (dataHandler fromIncome { env with rd := ReadResult.data c } s).bind (feed fromIncome env cs)

/-! ## Start of the program -/

/-- The variables of `main` when the loop is entered with the command
listener `listener` bound to port 21. The two data ports have no initial
value in the program; `active` and `passive` stand for what they hold. -/
def initialState (listener active passive : Int) (fs : List Nat → Option Node) : State :=
  { proxy_cmd_socket := listener
    client_command_socket := 0
    server_command_socket := 0
    proxy_data_socket := 0
    income_data_socket := 0
    outcome_data_socket := 0
    mode := 0
    waiting_for_server_data_port := 0
    cache_file_path := List.replicate 100 0
    cache_hit := 0
    should_send_cache_file := 0
    should_save_cache_file := 0
    file_transfer_mode := 0
    active_client_data_port := active
    passive_server_data_port := passive
    master_set := [listener]
    fs := fs
    trace := [Sys.bindListen 21 listener] }

/-! ## Command and reply lines, for stating what is read and written -/

/-- The text `PORT n1,n2,n3,n4,n5,n6` with the six numbers in decimal. -/
def portLine (n1 n2 n3 n4 n5 n6 : Nat) : List Nat :=
  bytes "PORT " ++ fmtNat n1 ++ [44] ++ fmtNat n2 ++ [44] ++ fmtNat n3 ++ [44] ++ fmtNat n4 ++
    [44] ++ fmtNat n5 ++ [44] ++ fmtNat n6

/-- The text `227 Entering Passive Mode (n1,n2,n3,n4,n5,n6)` with the six
numbers in decimal. -/
def pasvReplyLine (n1 n2 n3 n4 n5 n6 : Nat) : List Nat :=
  bytes "227 Entering Passive Mode (" ++ fmtNat n1 ++ [44] ++ fmtNat n2 ++ [44] ++ fmtNat n3 ++
    [44] ++ fmtNat n4 ++ [44] ++ fmtNat n5 ++ [44] ++ fmtNat n6 ++ [41]

/-! ## A concrete session, for evaluating the handlers -/

/-- The proxy advertising 10.0.0.100 in front of the origin `ftp.example.org`. -/
def exampleConfig : Config :=
  { server_address := bytes "ftp.example.org"
    proxy_address_0 := 10
    proxy_address_1 := 0
    proxy_address_2 := 0
    proxy_address_3 := 100 }

/-- An environment in which every call succeeds: `read` returns `rd`, a new
listener gets descriptor 6, an accepted connection 7 and an outgoing one 8. -/
def exampleEnv (rd : ReadResult) : Env :=
  { rd := rd
    listening := some 6
    accepted := some 7
    resolved := true
    connected := some 8
    fopen_r := true
    fopen_a := true }

/-- A session with command listener 3, client command socket 4 and server
command socket 5, over the files `fs`. -/
def sessionState (fs : List Nat → Option Node) : State :=
  { initialState 3 0 0 fs with
    client_command_socket := 4
    server_command_socket := 5
    master_set := [3, 4, 5] }

/-- A file system in which the cache directory that `mkdir("cache", 0775)`
creates holds no file: the path `cache/` names the directory and every other
path is absent. -/
def emptyCache : List Nat → Option Node :=
  fun q => if q = bytes "cache/" then some Node.dir else none

/-- The state a successful handler ends in, for evaluating one on a concrete
input. -/
def Res.toOption {α : Type} : Res α → Option α
  | Res.ok a => some a
  | Res.exit _ => none
  | Res.undef => none
  | Res.hang => none

/-- The bytes written to descriptor `fd` by the system calls of a trace, in
order. -/
def written (fd : Int) : List Sys → List Nat
  | [] => []
  | Sys.write fd2 data :: rest => if fd2 = fd then data ++ written fd rest else written fd rest
  | _ :: rest => written fd rest

/-- The session after the client sent `PASV`: passive mode, reply awaited. -/
def awaitingState (fs : List Nat → Option Node) : State :=
  { sessionState fs with
    mode := 1
    waiting_for_server_data_port := 1 }

/-- The session after the client sent `PASV` and then `PORT 10,0,0,5,8,1`,
before any reply of the server. -/
def afterPasvThenPort : Res State :=
  (clientCommandHandler exampleConfig (exampleEnv (ReadResult.data (bytes "PASV\r\n")))
    (sessionState emptyCache)).bind
    (clientCommandHandler exampleConfig
      (exampleEnv (ReadResult.data (bytes "PORT 10,0,0,5,8,1\r\n"))))

/-- The file name the handler works with: the bytes after the five-byte verb
up to the first NUL, line feed or carriage return. -/
def fileNameOf (chunk : List Nat) : List Nat :=
  (chunk.drop 5).takeWhile (fun b => b ≠ 0 ∧ b ≠ 10 ∧ b ≠ 13)

/-- Removal of the carriage returns and line feeds at the end of a list. -/
def stripTrailingEol (l : List Nat) : List Nat :=
  (l.reverse.dropWhile (fun b => b = 13 ∨ b = 10)).reverse

/-- The cache path as the specification words it: `cache/` followed by the
bytes after the five-byte verb with trailing CR/LF stripped. -/
def specCachePath (chunk : List Nat) : List Nat :=
  bytes "cache/" ++ stripTrailingEol (chunk.drop 5)

/-- Whether a piece of the program runs into behaviour the language leaves
undefined. -/
def Res.isUndef {α : Type} : Res α → Bool
  | Res.undef => true
  | Res.ok _ => false
  | Res.exit _ => false
  | Res.hang => false

/-- A file system in which the cache directory holds the one file
`cache/hello.txt` with the content `HELLO`: the path `cache/` names the
directory and every other path is absent. -/
def helloCache : List Nat → Option Node :=
  fun q =>
    if q = bytes "cache/hello.txt" then some (Node.file (bytes "HELLO"))
    else if q = bytes "cache/" then some Node.dir
    else none

/-- A passive-mode session in which `RETR hello.txt` has just found the file
in the cache and the data listener is descriptor 6. -/
def hitState : State :=
  { sessionState helloCache with
    mode := 1
    proxy_data_socket := 6
    passive_server_data_port := 10250
    cache_file_path := bytes "cache/hello.txt" ++ List.replicate 85 0
    cache_hit := 1
    should_send_cache_file := 1
    master_set := [3, 4, 5, 6] }

/-- A passive-mode session whose data listener, descriptor 6, is bound to the
port 10250 announced by the server. -/
def passiveState (fs : List Nat → Option Node) : State :=
  { sessionState fs with
    mode := 1
    proxy_data_socket := 6
    passive_server_data_port := 10250
    master_set := [3, 4, 5, 6] }

/-- The download of `hello.txt` into an empty cache in which the server sends
no byte: the `RETR` chunk, the data listener becoming ready, and the end of the
stream on the socket connected to the server. -/
def zeroByteDownload : Res State :=
  ((clientCommandHandler exampleConfig (exampleEnv (ReadResult.data (bytes "RETR hello.txt\r\n")))
      (passiveState emptyCache)).bind
    (dataListenerHandler exampleConfig (exampleEnv ReadResult.error) 1)).bind
    (feed false (exampleEnv ReadResult.error) [])

/-! ## The loop of `main` -/

/-- The status with which a piece of the program ended the process, if it
did. -/
def Res.exitCode {α : Type} : Res α → Option Int
  | Res.exit c => some c
  | Res.ok _ => none
  | Res.undef => none
  | Res.hang => none

/-- The start of `main` up to the loop: the two tests of `argc`, then
`bind_and_listen_socket(21)`, which exits with status 1 when it fails; on
success the loop is entered in `initialState` with the new listener. -/
def mainStart (argc : Int) (env : Env) (active passive : Int)
    (fs : List Nat → Option Node) : Res State :=
  if argc < 3 then Res.exit 1
  else if argc > 3 then Res.exit 1
  else
    match env.listening with
    | none => Res.exit 1
    | some fd => Res.ok (initialState fd active passive fs)

/-- The descriptor that `select` reported readable, by the variable of `main`
that holds it. -/
inductive Event where
  | commandListener
  | clientCommand
  | serverCommand
  | dataListener
  | incomeData
  | outcomeData
  deriving DecidableEq

/-- The handler the loop runs for a readable descriptor. -/
def handle (cfg : Config) (fuel : Nat) (ev : Event) (env : Env) (s : State) : Res State :=
  match ev with
  | Event.commandListener => proxyCommandHandler cfg env s
  | Event.clientCommand => clientCommandHandler cfg env s
  | Event.serverCommand => serverCommandHandler cfg env s
  | Event.dataListener => dataListenerHandler cfg env fuel s
  | Event.incomeData => incomeDataHandler env s
  | Event.outcomeData => outcomeDataHandler env s

/-- One pass of `while (TRUE)`: `main` returns 1 when `select` fails
(`selectResult < 0`) or times out (`selectResult == 0`); otherwise the handler
of the readable descriptor runs. -/
def loopPass (cfg : Config) (fuel : Nat) (selectResult : Int) (ev : Event) (env : Env)
    (s : State) : Res State :=
  if selectResult < 0 then Res.exit 1
  else if selectResult = 0 then Res.exit 1
  else handle cfg fuel ev env s

/-- The handlers run for a sequence of readable descriptors, each with the
outcomes of its own system calls. -/
def run (cfg : Config) (fuel : Nat) : List (Event × Env) → State → Res State
  | [], s => Res.ok s
  | e :: rest, s => (handle cfg fuel e.1 e.2 s).bind (run cfg fuel rest)

/-! ## Sessions as sequences of events -/

/-- Whether the event is a chunk from the client whose command word is
`PORT`, the chunks that the `PORT` branch handles. -/
def isPortCommand (ev : Event) (env : Env) : Bool :=
  decide (ev = Event.clientCommand) &&
    decide (cstr (commandOf (readBuff env.rd)) = bytes "PORT")

/-- Whether, along the run of the events from the state, no `PORT` command is
handled in a state in which `waiting_for_server_data_port` is 1. -/
def noPortWhileAwaiting (cfg : Config) (fuel : Nat) : List (Event × Env) → State → Bool
  | [], _ => true
  | e :: rest, s =>
    !(isPortCommand e.1 e.2 && decide (s.waiting_for_server_data_port = 1)) &&
      match handle cfg fuel e.1 e.2 s with
      | Res.ok s' => noPortWhileAwaiting cfg fuel rest s'
      | Res.exit _ => true
      | Res.undef => true
      | Res.hang => true

/-- A client connecting to the command listener: the accepted connection gets
descriptor 4 and the connection to the server descriptor 5. -/
def clientConnects : Event × Env :=
  (Event.commandListener,
    { exampleEnv ReadResult.error with accepted := some 4, connected := some 5 })

/-- The client sending the text on its command socket. -/
def clientSends (text : String) : Event × Env :=
  (Event.clientCommand, exampleEnv (ReadResult.data (bytes text)))

/-- The server sending the text on its command socket. -/
def serverSends (text : String) : Event × Env :=
  (Event.serverCommand, exampleEnv (ReadResult.data (bytes text)))

/-- The data listener becoming ready: the accepted data connection gets
descriptor 7 and the second data connection descriptor 8. -/
def dataConnects : Event × Env := (Event.dataListener, exampleEnv ReadResult.error)

/-- The end of the stream on the socket of the event. -/
def endOfStream (ev : Event) : Event × Env := (ev, exampleEnv (ReadResult.data []))

/-- The five descriptor variables of the session, each with whether its value
is in `master_set`: the client and server command sockets, the data listener
and the two data sockets. -/
def registration (s : State) : List (Int × Bool) :=
  [(s.client_command_socket, decide (s.client_command_socket ∈ s.master_set)),
    (s.server_command_socket, decide (s.server_command_socket ∈ s.master_set)),
    (s.proxy_data_socket, decide (s.proxy_data_socket ∈ s.master_set)),
    (s.income_data_socket, decide (s.income_data_socket ∈ s.master_set)),
    (s.outcome_data_socket, decide (s.outcome_data_socket ∈ s.master_set))]

/-- Whether a piece of the program was still running when its fuel ran out. -/
def Res.isHang {α : Type} : Res α → Bool
  | Res.hang => true
  | Res.ok _ => false
  | Res.exit _ => false
  | Res.undef => false

/-- The state after the client sent `RETR` with an empty file name in a
passive-mode session over the empty cache directory. -/
def emptyNameRetr : Res State :=
  clientCommandHandler exampleConfig (exampleEnv (ReadResult.data (bytes "RETR \r\n")))
    (passiveState emptyCache)

/-- The download that `RETR` with an empty file name starts: the `RETR` chunk
and then the data listener becoming ready, with `fuel` passes allowed to the
replay loop. -/
def emptyNameDownload (fuel : Nat) : Res State :=
  emptyNameRetr.bind (dataListenerHandler exampleConfig (exampleEnv ReadResult.error) fuel)

/-- The data connection arriving after the command sockets 4 and 5 were
closed: `accept` and `connect` hand out the two lowest free descriptors, 4 and
5 again. -/
def dataConnectsReusing : Event × Env :=
  (Event.dataListener,
    { exampleEnv ReadResult.error with accepted := some 4, connected := some 5 })

/-! ## Facts about formatting and scanning -/

theorem digitsValue_append_single (ds : List Nat) (x : Nat) :
    digitsValue (ds ++ [x]) = digitsValue ds * 10 + (x - 48) := by
  simp [digitsValue, List.foldl_append]

theorem isdigit_low_digit (n : Nat) : isdigit (48 + n % 10) = true := by
  have : n % 10 < 10 := Nat.mod_lt _ (by decide)
  simp [isdigit]
  omega

theorem fmtNatAux_spec : ∀ (fuel n : Nat) (acc : List Nat), n < fuel →
    ∃ ds, fmtNatAux fuel n acc = ds ++ acc ∧ ds ≠ [] ∧ (∀ x ∈ ds, isdigit x = true) ∧
      digitsValue ds = n ∧ (∀ k, n < 10 ^ (k + 1) → ds.length ≤ k + 1) := by
  intro fuel
  induction fuel with
  | zero => intro n acc h; omega
  | succ fuel ih =>
    intro n acc h
    by_cases h0 : n / 10 = 0
    · refine ⟨[48 + n % 10], ?_, by simp, ?_, ?_, by simp⟩
      · simp [fmtNatAux, h0]
      · intro x hx
        simp only [List.mem_singleton] at hx
        subst hx
        exact isdigit_low_digit n
      · simp [digitsValue]
        omega
    · have hlt : n / 10 < fuel := by omega
      obtain ⟨ds, h1, _, h3, h4, h5⟩ := ih (n / 10) ((48 + n % 10) :: acc) hlt
      refine ⟨ds ++ [48 + n % 10], ?_, by simp, ?_, ?_, ?_⟩
      · simp [fmtNatAux, h0, h1]
      · intro x hx
        rcases List.mem_append.mp hx with hx | hx
        · exact h3 x hx
        · simp only [List.mem_singleton] at hx
          subst hx
          exact isdigit_low_digit n
      · rw [digitsValue_append_single, h4]
        omega
      · intro k hk
        cases k with
        | zero => omega
        | succ k =>
          have hk2 : n / 10 < 10 ^ (k + 1) := by
            rw [Nat.div_lt_iff_lt_mul (by decide)]
            rw [pow_succ] at hk
            exact hk
          have := h5 k hk2
          simp
          omega

theorem fmtNat_spec (n : Nat) :
    fmtNat n ≠ [] ∧ (∀ x ∈ fmtNat n, isdigit x = true) ∧ digitsValue (fmtNat n) = n ∧
      (∀ k, n < 10 ^ (k + 1) → (fmtNat n).length ≤ k + 1) := by
  obtain ⟨ds, h1, h2, h3, h4, h5⟩ := fmtNatAux_spec (n + 1) n [] (Nat.lt_succ_self n)
  have h : fmtNat n = ds := by simp [fmtNat, h1]
  rw [h]
  exact ⟨h2, h3, h4, h5⟩

theorem fmtNat_length_octet (n : Nat) (h : n < 256) : (fmtNat n).length ≤ 3 :=
  (fmtNat_spec n).2.2.2 2 (by omega)

theorem fmtNat_length_pos (n : Nat) : 0 < (fmtNat n).length :=
  List.length_pos.mpr (fmtNat_spec n).1

theorem isdigit_ne_zero {x : Nat} (h : isdigit x = true) : x ≠ 0 := by
  simp [isdigit] at h
  omega

theorem isdigit_not_space {x : Nat} (h : isdigit x = true) : isspace x = false := by
  simp [isdigit] at h
  simp [isspace]
  omega

theorem fmtNat_no_nul (n : Nat) : 0 ∉ fmtNat n := fun h =>
  isdigit_ne_zero ((fmtNat_spec n).2.1 0 h) rfl

theorem fmtInt_natCast (n : Nat) : fmtInt (n : Int) = fmtNat n := by
  simp [fmtInt]

theorem takeWhile_append_of_all {p : Nat → Bool} (l rest : List Nat) (hl : ∀ x ∈ l, p x = true)
    (hr : ∀ x t, rest = x :: t → p x = false) :
    (l ++ rest).takeWhile p = l ∧ (l ++ rest).dropWhile p = rest := by
  induction l with
  | nil =>
    cases rest with
    | nil => simp
    | cons x t => simp [List.takeWhile, List.dropWhile, hr x t rfl]
  | cons a l ih =>
    have ha : p a = true := hl a (by simp)
    have := ih (fun x hx => hl x (by simp [hx]))
    simp [List.takeWhile, List.dropWhile, ha, this.1, this.2]

/-- Scanning the decimal rendering of `n` with `%d` yields `n` and stops at
the first character after it. -/
theorem scanInt_fmtNat (n : Nat) (rest : List Nat) (hn : (n : Int) ≤ INT_MAX)
    (hr : ∀ x t, rest = x :: t → isdigit x = false) :
    scanInt (fmtNat n ++ rest) = Conv.ok (n : Int) rest := by
  obtain ⟨hne, hdig, hval, _⟩ := fmtNat_spec n
  obtain ⟨x, t, hxt⟩ := List.exists_cons_of_ne_nil hne
  have hx : isdigit x = true := hdig x (by simp [hxt])
  have hsp : (fmtNat n ++ rest).dropWhile isspace = fmtNat n ++ rest := by
    simp [hxt, List.dropWhile, isdigit_not_space hx]
  have hsign : scanSign (fmtNat n ++ rest) = (false, fmtNat n ++ rest) := by
    have h45 : x ≠ 45 := by intro h; subst h; simp [isdigit] at hx
    have h43 : x ≠ 43 := by intro h; subst h; simp [isdigit] at hx
    simp [hxt, scanSign, h45, h43]
  obtain ⟨htake, hdrop⟩ := takeWhile_append_of_all (fmtNat n) rest hdig hr
  have hmin : INT_MIN ≤ (n : Int) := by
    have : (0 : Int) ≤ n := Int.natCast_nonneg n
    simp only [INT_MIN]
    omega
  simp [scanInt, hsp, hsign, htake, hdrop, hne, hval, hmin, hn]

theorem dropWhile_isspace_fmtNat (n : Nat) (rest : List Nat) :
    (fmtNat n ++ rest).dropWhile isspace = fmtNat n ++ rest := by
  obtain ⟨hne, hdig, _, _⟩ := fmtNat_spec n
  obtain ⟨x, t, hxt⟩ := List.exists_cons_of_ne_nil hne
  have hx : isdigit x = true := hdig x (by simp [hxt])
  simp [hxt, List.dropWhile, isdigit_not_space hx]

/-! ## Facts about buffers -/

theorem cstr_append_zeros (l : List Nat) (k : Nat) : cstr (l ++ List.replicate k 0) = cstr l := by
  induction l with
  | nil => cases k <;> simp [cstr, List.replicate, List.takeWhile]
  | cons a l ih =>
    by_cases ha : a = 0
    · simp [cstr, List.takeWhile, ha]
    · simp [cstr] at ih
      simp [cstr, List.takeWhile, ha, ih]

theorem cstr_of_no_nul (l : List Nat) (h : 0 ∉ l) : cstr l = l := by
  induction l with
  | nil => rfl
  | cons a l ih =>
    have ha : a ≠ 0 := fun e => h (by simp [e])
    have hl : 0 ∉ l := fun e => h (by simp [e])
    have ih2 := ih hl
    simp [cstr] at ih2
    simp [cstr, List.takeWhile, ha]
    exact ih2

theorem cstr_append_nul (l : List Nat) (h : 0 ∉ l) : cstr (l ++ [0]) = l := by
  have := cstr_append_zeros l 1
  simp only [List.replicate] at this
  rw [this, cstr_of_no_nul l h]

theorem readBuff_data (chunk : List Nat) (h : chunk.length ≤ BUFFSIZE) :
    readBuff (ReadResult.data chunk) = chunk ++ List.replicate (BUFFSIZE - chunk.length) 0 := by
  simp [readBuff, readBytes, List.take_of_length_le h]

theorem readSize_data (chunk : List Nat) (h : chunk.length ≤ BUFFSIZE) :
    readSize (ReadResult.data chunk) = (chunk.length : Int) := by
  simp [readSize, List.take_of_length_le h]

theorem terminated_readBuff (chunk : List Nat) (h : chunk.length < BUFFSIZE) :
    terminated (readBuff (ReadResult.data chunk)) = true := by
  rw [readBuff_data chunk (Nat.le_of_lt h)]
  have hpos : BUFFSIZE - chunk.length ≠ 0 := by omega
  simp [terminated, hpos]

theorem cstr_readBuff (chunk : List Nat) (h : chunk.length ≤ BUFFSIZE) :
    cstr (readBuff (ReadResult.data chunk)) = cstr chunk := by
  rw [readBuff_data chunk h, cstr_append_zeros]

theorem cstr_drop_readBuff (chunk : List Nat) (h : chunk.length ≤ BUFFSIZE) (k : Nat) :
    cstr ((readBuff (ReadResult.data chunk)).drop k) = cstr (chunk.drop k) := by
  rw [readBuff_data chunk h, List.drop_append_eq_append_drop, List.drop_replicate, cstr_append_zeros]

theorem command_word_aux (u : List Nat) (t1 t2 t3 t4 : Nat) (hu : 0 ∉ u) (hulen : u.length ≤ 4)
    (hsp : t4 ≠ 32) :
    cstr (if (u ++ List.replicate (4 - u.length) 0 ++ [0]).getD 3 0 = 32
        then (u ++ List.replicate (4 - u.length) 0 ++ [0]).set 3 0
        else u ++ List.replicate (4 - u.length) 0 ++ [0]) = [t1, t2, t3, t4] ↔
      u = [t1, t2, t3, t4] := by
  match u, hu, hulen with
  | [], _, _ => simp [cstr, List.replicate]
  | [a], hu, _ =>
    simp at hu
    simp [cstr, List.replicate, List.takeWhile, Ne.symm hu]
  | [a, b], hu, _ =>
    simp at hu
    obtain ⟨ha, hb⟩ := hu
    simp [cstr, List.replicate, List.takeWhile, Ne.symm ha, Ne.symm hb]
  | [a, b, c], hu, _ =>
    simp at hu
    obtain ⟨ha, hb, hc⟩ := hu
    simp [cstr, List.replicate, List.takeWhile, Ne.symm ha, Ne.symm hb, Ne.symm hc]
  | [a, b, c, d], hu, _ =>
    simp at hu
    obtain ⟨ha, hb, hc, hd⟩ := hu
    by_cases h32 : d = 32
    · subst h32
      simp [cstr, List.replicate, List.takeWhile, Ne.symm ha, Ne.symm hb, Ne.symm hc]
      intro _ _ _ h
      exact hsp h.symm
    · simp [cstr, List.replicate, List.takeWhile, Ne.symm ha, Ne.symm hb, Ne.symm hc,
        Ne.symm hd, h32]
  | _ :: _ :: _ :: _ :: _ :: _, _, h => simp at h

/-- The command word compared by `strcmp` is a given four-letter verb exactly
when the string in the buffer starts with that verb. -/
theorem commandOf_eq_iff (buff : List Nat) (t1 t2 t3 t4 : Nat) (hsp : t4 ≠ 32) :
    cstr (commandOf buff) = [t1, t2, t3, t4] ↔ (cstr buff).take 4 = [t1, t2, t3, t4] := by
  have hu : 0 ∉ (cstr buff).take 4 := by
    intro h
    have h2 := List.mem_of_mem_take h
    have h3 := List.mem_takeWhile_imp h2
    simp at h3
  have hulen : ((cstr buff).take 4).length ≤ 4 := by simp
  exact command_word_aux ((cstr buff).take 4) t1 t2 t3 t4 hu hulen hsp

/-! ## Scanning the six numbers -/

theorem sscanfDirs_lit (c : Nat) (ds : List Directive) (rest : List Nat) :
    sscanfDirs (Directive.lit c :: ds) (c :: rest) = sscanfDirs ds rest := by
  simp [sscanfDirs]

theorem sscanfDirs_space (ds : List Directive) (input : List Nat) :
    sscanfDirs (Directive.space :: ds) input = sscanfDirs ds (input.dropWhile isspace) := by
  simp [sscanfDirs]

theorem sscanfDirs_int_comma (ds : List Directive) (n : Nat) (rest : List Nat)
    (hn : (n : Int) ≤ INT_MAX) :
    sscanfDirs (Directive.int :: Directive.lit 44 :: ds) (fmtNat n ++ 44 :: rest) =
      (sscanfDirs ds rest).map (fun vs => (n : Int) :: vs) := by
  have h := scanInt_fmtNat n (44 :: rest) hn (by
    intro x t hxt
    cases hxt
    decide)
  simp [sscanfDirs, h]

theorem sscanfDirs_int_last (n : Nat) (rest : List Nat) (hn : (n : Int) ≤ INT_MAX)
    (hr : ∀ x t, rest = x :: t → isdigit x = false) :
    sscanfDirs [Directive.int] (fmtNat n ++ rest) = some [(n : Int)] := by
  simp [sscanfDirs, scanInt_fmtNat n rest hn hr]

theorem sscanfDirs_int_paren (n : Nat) (rest : List Nat) (hn : (n : Int) ≤ INT_MAX) :
    sscanfDirs [Directive.int, Directive.lit 41] (fmtNat n ++ 41 :: rest) = some [(n : Int)] := by
  have h := scanInt_fmtNat n (41 :: rest) hn (by
    intro x t hxt
    cases hxt
    decide)
  simp [sscanfDirs, h]

theorem directives_port :
    directives (bytes "PORT %d,%d,%d,%d,%d,%d") =
      [Directive.lit 80, Directive.lit 79, Directive.lit 82, Directive.lit 84, Directive.space,
        Directive.int, Directive.lit 44, Directive.int, Directive.lit 44, Directive.int,
        Directive.lit 44, Directive.int, Directive.lit 44, Directive.int, Directive.lit 44,
        Directive.int] := by
  decide

theorem octet_le_int_max {n : Nat} (h : n < 256) : (n : Int) ≤ INT_MAX := by
  simp only [INT_MAX]
  omega

/-- Scanning a `PORT` line yields its six numbers. -/
theorem sscanf_portLine (n1 n2 n3 n4 n5 n6 : Nat) (rest : List Nat)
    (h1 : n1 < 256) (h2 : n2 < 256) (h3 : n3 < 256) (h4 : n4 < 256) (h5 : n5 < 256)
    (h6 : n6 < 256) (hr : ∀ x t, rest = x :: t → isdigit x = false) :
    sscanfDirs (directives (bytes "PORT %d,%d,%d,%d,%d,%d")) (portLine n1 n2 n3 n4 n5 n6 ++ rest) =
      some [(n1 : Int), n2, n3, n4, n5, n6] := by
  rw [directives_port]
  have e : portLine n1 n2 n3 n4 n5 n6 ++ rest =
      80 :: 79 :: 82 :: 84 :: 32 :: (fmtNat n1 ++ 44 :: (fmtNat n2 ++ 44 :: (fmtNat n3 ++ 44 ::
        (fmtNat n4 ++ 44 :: (fmtNat n5 ++ 44 :: (fmtNat n6 ++ rest)))))) := by
    simp [portLine, bytes]
  rw [e]
  have hsp : (32 :: (fmtNat n1 ++ 44 :: (fmtNat n2 ++ 44 :: (fmtNat n3 ++ 44 ::
        (fmtNat n4 ++ 44 :: (fmtNat n5 ++ 44 :: (fmtNat n6 ++ rest))))))).dropWhile isspace =
      fmtNat n1 ++ 44 :: (fmtNat n2 ++ 44 :: (fmtNat n3 ++ 44 ::
        (fmtNat n4 ++ 44 :: (fmtNat n5 ++ 44 :: (fmtNat n6 ++ rest))))) := by
    rw [List.dropWhile_cons_of_pos (by decide)]
    exact dropWhile_isspace_fmtNat _ _
  rw [sscanfDirs_lit, sscanfDirs_lit, sscanfDirs_lit, sscanfDirs_lit, sscanfDirs_space, hsp]
  rw [sscanfDirs_int_comma _ _ _ (octet_le_int_max h1), sscanfDirs_int_comma _ _ _ (octet_le_int_max h2),
    sscanfDirs_int_comma _ _ _ (octet_le_int_max h3), sscanfDirs_int_comma _ _ _ (octet_le_int_max h4),
    sscanfDirs_int_comma _ _ _ (octet_le_int_max h5),
    sscanfDirs_int_last _ _ (octet_le_int_max h6) hr]
  rfl

/-! ## The `PORT` command -/

theorem FD_SET_mem (fd : Int) (s : State) : fd ∈ (FD_SET fd s).master_set := by
  unfold FD_SET
  by_cases h : fd ∈ s.master_set <;> simp [h]

theorem portLine_length (n1 n2 n3 n4 n5 n6 : Nat)
    (h1 : n1 < 256) (h2 : n2 < 256) (h3 : n3 < 256) (h4 : n4 < 256) (h5 : n5 < 256)
    (h6 : n6 < 256) : (portLine n1 n2 n3 n4 n5 n6).length ≤ 28 := by
  have := fmtNat_length_octet n1 h1
  have := fmtNat_length_octet n2 h2
  have := fmtNat_length_octet n3 h3
  have := fmtNat_length_octet n4 h4
  have := fmtNat_length_octet n5 h5
  have := fmtNat_length_octet n6 h6
  simp [portLine, bytes]
  omega

theorem portLine_no_nul (n1 n2 n3 n4 n5 n6 : Nat) : 0 ∉ portLine n1 n2 n3 n4 n5 n6 := by
  simp [portLine, bytes, fmtNat_no_nul]

theorem sprintf_port (a b c d p1 p2 : Nat) :
    sprintf (bytes "PORT %d,%d,%d,%d,%d,%d\n")
      [Arg.int a, Arg.int b, Arg.int c, Arg.int d, Arg.int p1, Arg.int p2] =
      portLine a b c d p1 p2 ++ [10] := by
  simp [sprintf, bytes, portLine, fmtInt_natCast]

theorem eol_not_digit (eol : List Nat) (heol : eol = [13, 10] ∨ eol = [10]) :
    ∀ x t, eol = x :: t → isdigit x = false := by
  intro x t h
  rcases heol with e | e <;> rw [e] at h <;> cases h <;> decide

theorem port_data_port (p1 p2 : Nat) (h1 : p1 < 256) (h2 : p2 < 256) :
    wrap32 ((p1 : Int) * 256 + p2) = (p1 : Int) * 256 + p2 ∧
      htons ((p1 : Int) * 256 + p2) = (p1 : Int) * 256 + p2 := by
  unfold wrap32 htons
  omega

/-- C1. A chunk `PORT h1,h2,h3,h4,p1,p2` followed by a line ending, all
numbers being octets, makes the handler of the client command socket write
exactly `PORT a,b,c,d,p1,p2\n` to the server command socket, where `a.b.c.d` is
the configured proxy address, after binding the data listener to port
`p1 * 256 + p2`. -/
theorem port_command_rewritten (cfg : Config) (env : Env) (s : State)
    (a b c d h1 h2 h3 h4 p1 p2 : Nat) (eol : List Nat) (fd : Int)
    (ha : a < 256) (hb : b < 256) (hc : c < 256) (hd : d < 256)
    (hh1 : h1 < 256) (hh2 : h2 < 256) (hh3 : h3 < 256) (hh4 : h4 < 256)
    (hp1 : p1 < 256) (hp2 : p2 < 256)
    (hcfg : cfg.proxy_address_0 = a ∧ cfg.proxy_address_1 = b ∧ cfg.proxy_address_2 = c ∧
      cfg.proxy_address_3 = d)
    (heol : eol = [13, 10] ∨ eol = [10])
    (hrd : env.rd = ReadResult.data (portLine h1 h2 h3 h4 p1 p2 ++ eol))
    (hlisten : env.listening = some fd) :
    ∃ s', clientCommandHandler cfg env s = Res.ok s' ∧
      s'.trace = s.trace ++
        (if s.proxy_data_socket > 0 then [Sys.close s.proxy_data_socket] else []) ++
        [Sys.bindListen ((p1 : Int) * 256 + p2) fd,
          Sys.write s.server_command_socket (portLine a b c d p1 p2 ++ [10])] ∧
      s'.proxy_data_socket = fd ∧ fd ∈ s'.master_set ∧
      s'.active_client_data_port = (p1 : Int) * 256 + p2 ∧ s'.mode = 0 := by
  obtain ⟨hc0, hc1, hc2, hc3⟩ := hcfg
  have hlen28 := portLine_length h1 h2 h3 h4 p1 p2 hh1 hh2 hh3 hh4 hp1 hp2
  have hpos : 5 ≤ (portLine h1 h2 h3 h4 p1 p2).length := by simp [portLine, bytes]
  have heollen : eol.length ≤ 2 := by rcases heol with e | e <;> simp [e]
  have hlen : (portLine h1 h2 h3 h4 p1 p2 ++ eol).length < BUFFSIZE := by
    simp [BUFFSIZE]; omega
  have hnul : 0 ∉ portLine h1 h2 h3 h4 p1 p2 ++ eol := by
    have := portLine_no_nul h1 h2 h3 h4 p1 p2
    rcases heol with e | e <;> simp [e, this]
  have hcstr : cstr (readBuff env.rd) = portLine h1 h2 h3 h4 p1 p2 ++ eol := by
    rw [hrd, cstr_readBuff _ (Nat.le_of_lt hlen), cstr_of_no_nul _ hnul]
  have hsize : readSize env.rd ≠ 0 := by
    rw [hrd, readSize_data _ (Nat.le_of_lt hlen)]
    simp
    omega
  have hterm : terminated (readBuff env.rd) = true := by
    rw [hrd]; exact terminated_readBuff _ hlen
  have hcmd : cstr (commandOf (readBuff env.rd)) = bytes "PORT" := by
    have e : bytes "PORT" = [80, 79, 82, 84] := by decide
    rw [e, commandOf_eq_iff _ _ _ _ _ (by decide), hcstr]
    simp [portLine, bytes]
  have hscan : sscanf (readBuff env.rd) (bytes "PORT %d,%d,%d,%d,%d,%d") =
      some [(h1 : Int), h2, h3, h4, p1, p2] := by
    unfold sscanf
    rw [hcstr]
    exact sscanf_portLine h1 h2 h3 h4 p1 p2 eol hh1 hh2 hh3 hh4 hp1 hp2 (eol_not_digit eol heol)
  obtain ⟨hwrap, hhtons⟩ := port_data_port p1 p2 hp1 hp2
  have hout := portLine_length a b c d p1 p2 ha hb hc hd hp1 hp2
  have hfit : ¬ (100 < (portLine a b c d p1 p2 ++ [10]).length + 1) := by
    simp; omega
  have hsend : cstr (portLine a b c d p1 p2 ++ [10] ++ [0]) = portLine a b c d p1 p2 ++ [10] := by
    apply cstr_append_nul
    simp [portLine_no_nul]
  unfold clientCommandHandler
  simp only [hsize, if_false, hterm, hcmd, if_true, portBranch, hscan, hwrap, hc0, hc1, hc2, hc3,
    sprintf_port, bind_and_listen_socket, hlisten, Res.bind, hfit, send_to_server, hsend, hhtons]
  refine ⟨_, rfl, ?_, ?_, ?_, ?_, ?_⟩
  · by_cases hl : s.proxy_data_socket > 0 <;> simp [hl, write, close, FD_SET, FD_CLR, hhtons]
  · simp [write, FD_SET]
  · exact FD_SET_mem _ _
  · by_cases hl : s.proxy_data_socket > 0 <;> simp [hl, write, close, FD_SET, FD_CLR]
  · by_cases hl : s.proxy_data_socket > 0 <;> simp [hl, write, close, FD_SET, FD_CLR]

/-- C1, witness: proxy 10.0.0.100 and the chunk `PORT 10,0,0,5,8,1` CR LF give
`PORT 10,0,0,100,8,1` LF and port 2049. -/
theorem port_command_rewritten_witness :
    ∃ s', clientCommandHandler exampleConfig
        (exampleEnv (ReadResult.data (bytes "PORT 10,0,0,5,8,1\r\n"))) (sessionState emptyCache) =
        Res.ok s' ∧
      s'.trace = (sessionState emptyCache).trace ++
        [Sys.bindListen 2049 6, Sys.write 5 (bytes "PORT 10,0,0,100,8,1\n")] := by
  obtain ⟨s', h, ht, _⟩ := port_command_rewritten exampleConfig
    (exampleEnv (ReadResult.data (bytes "PORT 10,0,0,5,8,1\r\n"))) (sessionState emptyCache)
    10 0 0 100 10 0 0 5 8 1 [13, 10] 6 (by decide) (by decide) (by decide) (by decide) (by decide)
    (by decide) (by decide) (by decide) (by decide) (by decide) (by decide) (by decide)
    (by decide) (by decide)
  exact ⟨s', h, by rw [ht]; decide⟩

/-! ## The `227` reply -/

theorem directives_pasv_reply :
    directives (bytes "227 Entering Passive Mode (%d,%d,%d,%d,%d,%d)") =
      [Directive.lit 50, Directive.lit 50, Directive.lit 55, Directive.space,
        Directive.lit 69, Directive.lit 110, Directive.lit 116, Directive.lit 101,
        Directive.lit 114, Directive.lit 105, Directive.lit 110, Directive.lit 103,
        Directive.space,
        Directive.lit 80, Directive.lit 97, Directive.lit 115, Directive.lit 115,
        Directive.lit 105, Directive.lit 118, Directive.lit 101, Directive.space,
        Directive.lit 77, Directive.lit 111, Directive.lit 100, Directive.lit 101,
        Directive.space, Directive.lit 40,
        Directive.int, Directive.lit 44, Directive.int, Directive.lit 44, Directive.int,
        Directive.lit 44, Directive.int, Directive.lit 44, Directive.int, Directive.lit 44,
        Directive.int, Directive.lit 41] := by
  decide

theorem dropWhile_isspace_blank (c : Nat) (rest : List Nat) (hc : isspace c = false) :
    (32 :: c :: rest).dropWhile isspace = c :: rest := by
  rw [List.dropWhile_cons_of_pos (by decide), List.dropWhile_cons_of_neg (by simp [hc])]

/-- Scanning a `227` reply yields its six numbers. -/
theorem sscanf_pasvReplyLine (n1 n2 n3 n4 n5 n6 : Nat) (rest : List Nat)
    (h1 : n1 < 256) (h2 : n2 < 256) (h3 : n3 < 256) (h4 : n4 < 256) (h5 : n5 < 256)
    (h6 : n6 < 256) :
    sscanfDirs (directives (bytes "227 Entering Passive Mode (%d,%d,%d,%d,%d,%d)"))
        (pasvReplyLine n1 n2 n3 n4 n5 n6 ++ rest) =
      some [(n1 : Int), n2, n3, n4, n5, n6] := by
  rw [directives_pasv_reply]
  have e : pasvReplyLine n1 n2 n3 n4 n5 n6 ++ rest =
      50 :: 50 :: 55 :: 32 :: 69 :: 110 :: 116 :: 101 :: 114 :: 105 :: 110 :: 103 :: 32 ::
        80 :: 97 :: 115 :: 115 :: 105 :: 118 :: 101 :: 32 :: 77 :: 111 :: 100 :: 101 :: 32 ::
        40 :: (fmtNat n1 ++ 44 :: (fmtNat n2 ++ 44 :: (fmtNat n3 ++ 44 ::
        (fmtNat n4 ++ 44 :: (fmtNat n5 ++ 44 :: (fmtNat n6 ++ 41 :: rest)))))) := by
    simp [pasvReplyLine, bytes]
  rw [e]
  rw [sscanfDirs_lit, sscanfDirs_lit, sscanfDirs_lit, sscanfDirs_space,
    dropWhile_isspace_blank _ _ (by decide)]
  rw [sscanfDirs_lit, sscanfDirs_lit, sscanfDirs_lit, sscanfDirs_lit, sscanfDirs_lit,
    sscanfDirs_lit, sscanfDirs_lit, sscanfDirs_lit, sscanfDirs_space,
    dropWhile_isspace_blank _ _ (by decide)]
  rw [sscanfDirs_lit, sscanfDirs_lit, sscanfDirs_lit, sscanfDirs_lit, sscanfDirs_lit,
    sscanfDirs_lit, sscanfDirs_lit, sscanfDirs_space, dropWhile_isspace_blank _ _ (by decide)]
  rw [sscanfDirs_lit, sscanfDirs_lit, sscanfDirs_lit, sscanfDirs_lit, sscanfDirs_space,
    dropWhile_isspace_blank _ _ (by decide), sscanfDirs_lit]
  rw [sscanfDirs_int_comma _ _ _ (octet_le_int_max h1), sscanfDirs_int_comma _ _ _ (octet_le_int_max h2),
    sscanfDirs_int_comma _ _ _ (octet_le_int_max h3), sscanfDirs_int_comma _ _ _ (octet_le_int_max h4),
    sscanfDirs_int_comma _ _ _ (octet_le_int_max h5),
    sscanfDirs_int_paren _ _ (octet_le_int_max h6)]
  rfl

theorem pasvReplyLine_length (n1 n2 n3 n4 n5 n6 : Nat)
    (h1 : n1 < 256) (h2 : n2 < 256) (h3 : n3 < 256) (h4 : n4 < 256) (h5 : n5 < 256)
    (h6 : n6 < 256) : (pasvReplyLine n1 n2 n3 n4 n5 n6).length ≤ 51 := by
  have := fmtNat_length_octet n1 h1
  have := fmtNat_length_octet n2 h2
  have := fmtNat_length_octet n3 h3
  have := fmtNat_length_octet n4 h4
  have := fmtNat_length_octet n5 h5
  have := fmtNat_length_octet n6 h6
  simp [pasvReplyLine, bytes]
  omega

theorem pasvReplyLine_no_nul (n1 n2 n3 n4 n5 n6 : Nat) : 0 ∉ pasvReplyLine n1 n2 n3 n4 n5 n6 := by
  simp [pasvReplyLine, bytes, fmtNat_no_nul]

theorem sprintf_pasv_reply (a b c d p1 p2 : Nat) :
    sprintf (bytes "227 Entering Passive Mode (%d,%d,%d,%d,%d,%d)\n")
      [Arg.int a, Arg.int b, Arg.int c, Arg.int d, Arg.int p1, Arg.int p2] =
      pasvReplyLine a b c d p1 p2 ++ [10] := by
  simp [sprintf, bytes, pasvReplyLine, fmtInt_natCast]

/-- C2, as amended. In passive mode with the reply to `PASV` awaited, a chunk
`227 Entering Passive Mode (h1,h2,h3,h4,p1,p2)` followed by a line ending, all
numbers being octets, makes the handler of the server command socket write
exactly `227 Entering Passive Mode (a,b,c,d,p1,p2)\n` to the client command
socket, store `p1 * 256 + p2` as the passive data port, listen on that port and
clear the awaiting flag. -/
theorem pasv_reply_rewritten (cfg : Config) (env : Env) (s : State)
    (a b c d h1 h2 h3 h4 p1 p2 : Nat) (eol : List Nat) (fd : Int)
    (ha : a < 256) (hb : b < 256) (hc : c < 256) (hd : d < 256)
    (hh1 : h1 < 256) (hh2 : h2 < 256) (hh3 : h3 < 256) (hh4 : h4 < 256)
    (hp1 : p1 < 256) (hp2 : p2 < 256)
    (hcfg : cfg.proxy_address_0 = a ∧ cfg.proxy_address_1 = b ∧ cfg.proxy_address_2 = c ∧
      cfg.proxy_address_3 = d)
    (hmode : s.mode = 1) (hwait : s.waiting_for_server_data_port = 1)
    (heol : eol = [13, 10] ∨ eol = [10])
    (hrd : env.rd = ReadResult.data (pasvReplyLine h1 h2 h3 h4 p1 p2 ++ eol))
    (hlisten : env.listening = some fd) :
    ∃ s', serverCommandHandler cfg env s = Res.ok s' ∧
      s'.trace = s.trace ++
        (if s.proxy_data_socket > 0 then [Sys.close s.proxy_data_socket] else []) ++
        [Sys.bindListen ((p1 : Int) * 256 + p2) fd,
          Sys.write s.client_command_socket (pasvReplyLine a b c d p1 p2 ++ [10])] ∧
      s'.passive_server_data_port = (p1 : Int) * 256 + p2 ∧
      s'.waiting_for_server_data_port = 0 ∧
      s'.proxy_data_socket = fd ∧ fd ∈ s'.master_set := by
  obtain ⟨hc0, hc1, hc2, hc3⟩ := hcfg
  have hlen51 := pasvReplyLine_length h1 h2 h3 h4 p1 p2 hh1 hh2 hh3 hh4 hp1 hp2
  have hpos : 28 ≤ (pasvReplyLine h1 h2 h3 h4 p1 p2).length := by
    simp [pasvReplyLine, bytes]
    omega
  have heollen : eol.length ≤ 2 := by rcases heol with e | e <;> simp [e]
  have hlen : (pasvReplyLine h1 h2 h3 h4 p1 p2 ++ eol).length < BUFFSIZE := by
    simp [BUFFSIZE]; omega
  have hnul : 0 ∉ pasvReplyLine h1 h2 h3 h4 p1 p2 ++ eol := by
    have := pasvReplyLine_no_nul h1 h2 h3 h4 p1 p2
    rcases heol with e | e <;> simp [e, this]
  have hcstr : cstr (readBuff env.rd) = pasvReplyLine h1 h2 h3 h4 p1 p2 ++ eol := by
    rw [hrd, cstr_readBuff _ (Nat.le_of_lt hlen), cstr_of_no_nul _ hnul]
  have hsize : readSize env.rd ≠ 0 := by
    rw [hrd, readSize_data _ (Nat.le_of_lt hlen)]
    simp
    omega
  have hterm : terminated (readBuff env.rd) = true := by
    rw [hrd]; exact terminated_readBuff _ hlen
  have hcode : (cstr (readBuff env.rd)).take 3 = bytes "227" := by
    rw [hcstr]
    simp [pasvReplyLine, bytes]
  have hscan : sscanf (readBuff env.rd) (bytes "227 Entering Passive Mode (%d,%d,%d,%d,%d,%d)") =
      some [(h1 : Int), h2, h3, h4, p1, p2] := by
    unfold sscanf
    rw [hcstr]
    exact sscanf_pasvReplyLine h1 h2 h3 h4 p1 p2 _ hh1 hh2 hh3 hh4 hp1 hp2
  obtain ⟨hwrap, hhtons⟩ := port_data_port p1 p2 hp1 hp2
  have hout := pasvReplyLine_length a b c d p1 p2 ha hb hc hd hp1 hp2
  have hfit : ¬ (60 < (pasvReplyLine a b c d p1 p2 ++ [10]).length + 1) := by
    simp; omega
  have hsend : cstr (pasvReplyLine a b c d p1 p2 ++ [10] ++ [0]) =
      pasvReplyLine a b c d p1 p2 ++ [10] := by
    apply cstr_append_nul
    simp [pasvReplyLine_no_nul]
  unfold serverCommandHandler
  simp only [hsize, if_false, hterm, hmode, hwait, hcode, and_self, if_true, pasvReplyBranch,
    hscan, hwrap, hc0, hc1, hc2, hc3, sprintf_pasv_reply, bind_and_listen_socket, hlisten,
    Res.bind, hfit, send_to_client, hsend, hhtons]
  refine ⟨_, rfl, ?_, ?_, ?_, ?_, ?_⟩
  · by_cases hl : s.proxy_data_socket > 0 <;> simp [hl, write, close, FD_SET, FD_CLR, hhtons]
  · by_cases hl : s.proxy_data_socket > 0 <;> simp [hl, write, close, FD_SET, FD_CLR]
  · by_cases hl : s.proxy_data_socket > 0 <;> simp [hl, write, close, FD_SET, FD_CLR]
  · simp [write, FD_SET]
  · exact FD_SET_mem _ _

/-- C2, witness: in passive mode with the reply awaited, `(192,168,1,2,40,10)`
becomes `(10,0,0,100,40,10)` and the port is 10250. -/
theorem pasv_reply_rewritten_witness :
    ∃ s', serverCommandHandler exampleConfig
        (exampleEnv (ReadResult.data (bytes "227 Entering Passive Mode (192,168,1,2,40,10)\r\n")))
        (awaitingState emptyCache) = Res.ok s' ∧
      s'.trace = (awaitingState emptyCache).trace ++
        [Sys.bindListen 10250 6,
          Sys.write 4 (bytes "227 Entering Passive Mode (10,0,0,100,40,10)\n")] ∧
      s'.passive_server_data_port = 10250 ∧ s'.waiting_for_server_data_port = 0 := by
  obtain ⟨s', h, ht, hp, hw, _⟩ := pasv_reply_rewritten exampleConfig
    (exampleEnv (ReadResult.data (bytes "227 Entering Passive Mode (192,168,1,2,40,10)\r\n")))
    (awaitingState emptyCache)
    10 0 0 100 192 168 1 2 40 10 [13, 10] 6 (by decide) (by decide) (by decide) (by decide)
    (by decide) (by decide) (by decide) (by decide) (by decide) (by decide) (by decide)
    (by decide) (by decide) (by decide) (by decide) (by decide)
  exact ⟨s', h, by rw [ht]; decide, by rw [hp]; decide, hw⟩

/-- C2, counterexample. After `PASV` and then `PORT` from the client the
awaiting flag is set while the mode is active; a `227` reply read in that state
is written to the client unchanged, with the address of the server in it, and
the flag stays set. -/
theorem pasv_reply_unchanged_in_active_mode :
    (afterPasvThenPort.toOption.map fun s => (s.mode, s.waiting_for_server_data_port)) =
        some (0, 1) ∧
      ((afterPasvThenPort.bind (serverCommandHandler exampleConfig (exampleEnv (ReadResult.data
          (bytes "227 Entering Passive Mode (192,168,1,2,40,10)\r\n"))))).toOption.map
        fun s => (written 4 s.trace, s.waiting_for_server_data_port)) =
        some (bytes "227 Entering Passive Mode (192,168,1,2,40,10)\r\n", 1) := by
  decide

/-! ## Commands passed through -/

theorem take_four_of_cstr (l : List Nat) (t1 t2 t3 t4 : Nat)
    (h : (cstr l).take 4 = [t1, t2, t3, t4]) : l.take 4 = [t1, t2, t3, t4] := by
  unfold cstr at h
  match l with
  | [] => simp at h
  | [a] =>
    by_cases ha : a = 0 <;> simp [List.takeWhile, ha] at h
  | [a, b] =>
    by_cases ha : a = 0 <;> by_cases hb : b = 0 <;> simp [List.takeWhile, ha, hb] at h
  | [a, b, c] =>
    by_cases ha : a = 0 <;> by_cases hb : b = 0 <;> by_cases hc : c = 0 <;>
      simp [List.takeWhile, ha, hb, hc] at h
  | a :: b :: c :: d :: rest =>
    by_cases ha : a = 0 <;> by_cases hb : b = 0 <;> by_cases hc : c = 0 <;>
      by_cases hd : d = 0 <;> simp [List.takeWhile, ha, hb, hc, hd] at h ⊢
    exact h

/-- A chunk that fills the whole buffer without a NUL byte leaves no
terminator for the string functions applied to the buffer. -/
theorem client_chunk_filling_buffer (cfg : Config) (env : Env) (s : State) (chunk : List Nat)
    (hlen : chunk.length = BUFFSIZE) (hnul : 0 ∉ chunk) (hrd : env.rd = ReadResult.data chunk) :
    clientCommandHandler cfg env s = Res.undef := by
  have hsize : readSize env.rd ≠ 0 := by
    rw [hrd, readSize_data _ (Nat.le_of_eq hlen), hlen]
    decide
  have hterm : terminated (readBuff env.rd) = false := by
    rw [hrd, readBuff_data _ (Nat.le_of_eq hlen), hlen]
    simp [terminated, hnul]
  unfold clientCommandHandler
  simp only [hsize, if_false, hterm, if_true]

/-- C3, as amended. A chunk of 1 to 2047 bytes that does not begin with
`PORT`, `PASV`, `RETR` or `STOR` is written to the server command socket up to
its first NUL byte, which is the whole chunk when it holds no NUL byte, and
nothing else in the session changes. -/
theorem other_command_forwarded (cfg : Config) (env : Env) (s : State) (chunk : List Nat)
    (hne : chunk ≠ []) (hlen : chunk.length < BUFFSIZE)
    (hport : chunk.take 4 ≠ bytes "PORT") (hpasv : chunk.take 4 ≠ bytes "PASV")
    (hretr : chunk.take 4 ≠ bytes "RETR") (hstor : chunk.take 4 ≠ bytes "STOR")
    (hrd : env.rd = ReadResult.data chunk) :
    clientCommandHandler cfg env s =
        Res.ok { s with trace := s.trace ++ [Sys.write s.server_command_socket (cstr chunk)] } ∧
      (0 ∉ chunk → cstr chunk = chunk) := by
  refine ⟨?_, cstr_of_no_nul chunk⟩
  have hsize : readSize env.rd ≠ 0 := by
    rw [hrd, readSize_data _ (Nat.le_of_lt hlen)]
    have := List.length_pos.mpr hne
    omega
  have hterm : terminated (readBuff env.rd) = true := by
    rw [hrd]; exact terminated_readBuff _ hlen
  have hcstr : cstr (readBuff env.rd) = cstr chunk := by
    rw [hrd, cstr_readBuff _ (Nat.le_of_lt hlen)]
  have e1 : bytes "PORT" = [80, 79, 82, 84] := by decide
  have e2 : bytes "PASV" = [80, 65, 83, 86] := by decide
  have e3 : bytes "RETR" = [82, 69, 84, 82] := by decide
  have e4 : bytes "STOR" = [83, 84, 79, 82] := by decide
  have h1 : ¬ cstr (commandOf (readBuff env.rd)) = bytes "PORT" := by
    rw [e1, commandOf_eq_iff _ _ _ _ _ (by decide), hcstr]
    intro h
    exact hport (by rw [e1]; exact take_four_of_cstr _ _ _ _ _ h)
  have h2 : ¬ cstr (commandOf (readBuff env.rd)) = bytes "PASV" := by
    rw [e2, commandOf_eq_iff _ _ _ _ _ (by decide), hcstr]
    intro h
    exact hpasv (by rw [e2]; exact take_four_of_cstr _ _ _ _ _ h)
  have h3 : ¬ cstr (commandOf (readBuff env.rd)) = bytes "RETR" := by
    rw [e3, commandOf_eq_iff _ _ _ _ _ (by decide), hcstr]
    intro h
    exact hretr (by rw [e3]; exact take_four_of_cstr _ _ _ _ _ h)
  have h4 : ¬ cstr (commandOf (readBuff env.rd)) = bytes "STOR" := by
    rw [e4, commandOf_eq_iff _ _ _ _ _ (by decide), hcstr]
    intro h
    exact hstor (by rw [e4]; exact take_four_of_cstr _ _ _ _ _ h)
  unfold clientCommandHandler
  simp only [hsize, if_false, hterm, h1, h2, h3, h4, send_to_server, hcstr, write]
  simp

/-- C3, witness: `CWD /pub` CR LF is written as it is and only the trace
changes. -/
theorem other_command_forwarded_witness :
    clientCommandHandler exampleConfig (exampleEnv (ReadResult.data (bytes "CWD /pub\r\n")))
        (sessionState emptyCache) =
      Res.ok { sessionState emptyCache with
        trace := (sessionState emptyCache).trace ++ [Sys.write 5 (bytes "CWD /pub\r\n")] } := by
  have h := other_command_forwarded exampleConfig
    (exampleEnv (ReadResult.data (bytes "CWD /pub\r\n"))) (sessionState emptyCache)
    (bytes "CWD /pub\r\n") (by decide) (by decide) (by decide) (by decide) (by decide)
    (by decide) rfl
  rw [h.1, h.2 (by decide)]
  rfl

/-- C3, counterexample. A chunk with a NUL byte in it, `CWD`, NUL, `/pub`,
CR, LF, is cut at the NUL byte: only `CWD` is written to the server. -/
theorem chunk_with_nul_truncated :
    ((clientCommandHandler exampleConfig
        (exampleEnv (ReadResult.data (bytes "CWD" ++ [0] ++ bytes "/pub\r\n")))
        (sessionState emptyCache)).toOption.map fun s => written 5 s.trace) =
      some (bytes "CWD") ∧
    bytes "CWD" ≠ bytes "CWD" ++ [0] ++ bytes "/pub\r\n" := by
  decide

/-! ## `RETR` and `STOR` -/

theorem cstr_take_four (l : List Nat) (t1 t2 t3 t4 : Nat) (h1 : t1 ≠ 0) (h2 : t2 ≠ 0)
    (h3 : t3 ≠ 0) (h4 : t4 ≠ 0) (h : l.take 4 = [t1, t2, t3, t4]) :
    (cstr l).take 4 = [t1, t2, t3, t4] := by
  match l with
  | [] => simp at h
  | [a] => simp at h
  | [a, b] => simp at h
  | [a, b, c] => simp at h
  | a :: b :: c :: d :: rest =>
    simp at h
    obtain ⟨ha, hb, hc, hd⟩ := h
    subst ha hb hc hd
    simp [cstr, List.takeWhile, h1, h2, h3, h4]

theorem cstr_cutAtEol (l : List Nat) (k : Nat) (h : 0 ∉ l) :
    cstr (cutAtEol (l ++ List.replicate k 0)) = l.takeWhile (fun b => b ≠ 10 ∧ b ≠ 13) := by
  induction l with
  | nil =>
    cases k with
    | zero => simp [cutAtEol, cstr]
    | succ k => simp [List.replicate, cutAtEol, cstr]
  | cons a l ih =>
    have ha : a ≠ 0 := fun e => h (by simp [e])
    have hl : 0 ∉ l := fun e => h (by simp [e])
    have ih2 := ih hl
    by_cases h10 : a = 10
    · subst h10
      simp [cutAtEol, cstr, List.takeWhile]
    · by_cases h13 : a = 13
      · subst h13
        simp [cutAtEol, cstr, List.takeWhile]
      · simp only [cstr] at ih2
        simp [cutAtEol, cstr, List.takeWhile, ha, h10, h13]
        simpa using ih2

theorem takeWhile_takeWhile_eol (l : List Nat) :
    (cstr l).takeWhile (fun b => b ≠ 10 ∧ b ≠ 13) =
      l.takeWhile (fun b => b ≠ 0 ∧ b ≠ 10 ∧ b ≠ 13) := by
  induction l with
  | nil => simp [cstr]
  | cons a l ih =>
    simp only [cstr] at ih
    by_cases ha : a = 0
    · simp [cstr, List.takeWhile, ha]
    · by_cases h10 : a = 10
      · simp [cstr, List.takeWhile, ha, h10]
      · by_cases h13 : a = 13
        · simp [cstr, List.takeWhile, ha, h13]
        · simp [cstr, List.takeWhile, ha, h10, h13]
          simpa using ih

theorem cstr_no_nul (l : List Nat) : 0 ∉ cstr l := by
  intro h
  have := List.mem_takeWhile_imp h
  simp at this

/-- The array `cache_file_path` computed from a chunk whose text after the
verb fits: the string in it is `cache/` followed by the file name. -/
theorem cachePathOf_readBuff (chunk : List Nat) (hlen : chunk.length ≤ BUFFSIZE)
    (hfit : (cstr (chunk.drop 5)).length ≤ 93) :
    ∃ arr, cachePathOf (readBuff (ReadResult.data chunk)) = some arr ∧
      cstr arr = bytes "cache/" ++ fileNameOf chunk := by
  have htext : sprintf (bytes "cache/%s") [Arg.str (cstr (chunk.drop 5))] =
      bytes "cache/" ++ cstr (chunk.drop 5) := by
    simp [sprintf, bytes]
  have hnot : ¬ (100 < (bytes "cache/" ++ cstr (chunk.drop 5)).length + 1) := by
    simp [bytes]
    omega
  have hnul : 0 ∉ bytes "cache/" ++ cstr (chunk.drop 5) := by
    intro h
    rcases List.mem_append.mp h with h | h
    · revert h; decide
    · exact cstr_no_nul _ h
  have hp : cachePathOf (readBuff (ReadResult.data chunk)) =
      some (cutAtEol ((bytes "cache/" ++ cstr (chunk.drop 5)) ++
        List.replicate (100 - (bytes "cache/" ++ cstr (chunk.drop 5)).length) 0)) := by
    unfold cachePathOf
    simp only [cstr_drop_readBuff chunk hlen, htext, hnot, if_false]
  refine ⟨_, hp, ?_⟩
  rw [cstr_cutAtEol _ _ hnul, List.takeWhile_append_of_pos (by decide), fileNameOf,
    takeWhile_takeWhile_eol]

theorem verb_of_take_five (chunk : List Nat) (t1 t2 t3 t4 t5 : Nat)
    (h : chunk.take 5 = [t1, t2, t3, t4, t5]) : chunk.take 4 = [t1, t2, t3, t4] := by
  have : chunk.take 4 = (chunk.take 5).take 4 := by simp [List.take_take]
  rw [this, h]
  rfl

/-- What the handler of the client command socket does with a chunk that
starts with `RETR`, once the cache path fits its array. -/
theorem retr_handled (cfg : Config) (env : Env) (s : State) (chunk arr : List Nat)
    (hlen : chunk.length < BUFFSIZE) (hverb : chunk.take 4 = bytes "RETR")
    (hrd : env.rd = ReadResult.data chunk)
    (harr : cachePathOf (readBuff (ReadResult.data chunk)) = some arr) :
    clientCommandHandler cfg env s =
      Res.ok (write s.server_command_socket (cstr chunk)
        (checkCache { s with file_transfer_mode := 0, cache_file_path := arr })) := by
  have hne : chunk ≠ [] := by
    intro e
    rw [e] at hverb
    revert hverb
    decide
  have hsize : readSize env.rd ≠ 0 := by
    rw [hrd, readSize_data _ (Nat.le_of_lt hlen)]
    have := List.length_pos.mpr hne
    omega
  have hterm : terminated (readBuff env.rd) = true := by
    rw [hrd]; exact terminated_readBuff _ hlen
  have hcstr : cstr (readBuff env.rd) = cstr chunk := by
    rw [hrd, cstr_readBuff _ (Nat.le_of_lt hlen)]
  have e3 : bytes "RETR" = [82, 69, 84, 82] := by decide
  have hcmd : cstr (commandOf (readBuff env.rd)) = [82, 69, 84, 82] := by
    rw [commandOf_eq_iff _ _ _ _ _ (by decide), hcstr]
    exact cstr_take_four _ _ _ _ _ (by decide) (by decide) (by decide) (by decide)
      (by rw [← e3]; exact hverb)
  have e1 : bytes "PORT" = [80, 79, 82, 84] := by decide
  have e2 : bytes "PASV" = [80, 65, 83, 86] := by decide
  unfold clientCommandHandler
  rw [hrd] at hcstr hcmd hsize hterm
  simp only [hrd, hsize, if_false, hterm, hcmd, e1, e2, e3, retrBranch, harr, send_to_server, hcstr]
  simp [checkCache]
  split <;> rfl

/-- What the handler of the client command socket does with a chunk that
starts with `STOR`, once the cache path fits its array. -/
theorem stor_handled (cfg : Config) (env : Env) (s : State) (chunk arr : List Nat)
    (hlen : chunk.length < BUFFSIZE) (hverb : chunk.take 4 = bytes "STOR")
    (hrd : env.rd = ReadResult.data chunk)
    (harr : cachePathOf (readBuff (ReadResult.data chunk)) = some arr) :
    clientCommandHandler cfg env s =
      Res.ok (write s.server_command_socket (cstr chunk)
        (checkCache { s with file_transfer_mode := 1, cache_file_path := arr })) := by
  have hne : chunk ≠ [] := by
    intro e
    rw [e] at hverb
    revert hverb
    decide
  have hsize : readSize env.rd ≠ 0 := by
    rw [hrd, readSize_data _ (Nat.le_of_lt hlen)]
    have := List.length_pos.mpr hne
    omega
  have hterm : terminated (readBuff env.rd) = true := by
    rw [hrd]; exact terminated_readBuff _ hlen
  have hcstr : cstr (readBuff env.rd) = cstr chunk := by
    rw [hrd, cstr_readBuff _ (Nat.le_of_lt hlen)]
  have e4 : bytes "STOR" = [83, 84, 79, 82] := by decide
  have hcmd : cstr (commandOf (readBuff env.rd)) = [83, 84, 79, 82] := by
    rw [commandOf_eq_iff _ _ _ _ _ (by decide), hcstr]
    exact cstr_take_four _ _ _ _ _ (by decide) (by decide) (by decide) (by decide)
      (by rw [← e4]; exact hverb)
  have e1 : bytes "PORT" = [80, 79, 82, 84] := by decide
  have e2 : bytes "PASV" = [80, 65, 83, 86] := by decide
  have e3 : bytes "RETR" = [82, 69, 84, 82] := by decide
  unfold clientCommandHandler
  rw [hrd] at hcstr hcmd hsize hterm
  simp only [hrd, hsize, if_false, hterm, hcmd, e1, e2, e3, e4, storBranch, harr, send_to_server,
    hcstr]
  simp [checkCache]
  split <;> rfl

theorem checkCache_flags (s : State) :
    ((checkCache s).cache_hit = 1 ∧ (checkCache s).should_send_cache_file = 1 ∧
        (checkCache s).should_save_cache_file = 0 ↔ (s.fs (cstr s.cache_file_path)).isSome = true) ∧
      ((checkCache s).cache_hit = 0 ∧ (checkCache s).should_send_cache_file = 0 ∧
        (checkCache s).should_save_cache_file = 1 ↔ s.fs (cstr s.cache_file_path) = none) ∧
      (checkCache s).cache_file_path = s.cache_file_path ∧
      (checkCache s).file_transfer_mode = s.file_transfer_mode ∧
      (checkCache s).trace = s.trace ∧ (checkCache s).fs = s.fs ∧
      (checkCache s).server_command_socket = s.server_command_socket := by
  unfold checkCache
  cases h : s.fs (cstr s.cache_file_path) <;> simp

/-- C4, as amended. For a chunk of at most 98 bytes without a NUL byte that
begins with `RETR ` or `STOR `, the handler leaves the session in the hit state
(`cache_hit = 1`, `should_send_cache_file = 1`, `should_save_cache_file = 0`)
exactly when a file exists at the derived cache path and in the miss state
(`0`, `0`, `1`) exactly when none does, sets `file_transfer_mode` to 0 for
`RETR` and 1 for `STOR`, and writes the chunk unchanged to the server command
socket. -/
theorem cache_decision (cfg : Config) (env : Env) (s : State) (chunk : List Nat)
    (hverb : chunk.take 5 = bytes "RETR " ∨ chunk.take 5 = bytes "STOR ")
    (hnul : 0 ∉ chunk) (hlen : chunk.length ≤ 98)
    (hrd : env.rd = ReadResult.data chunk) :
    ∃ s', clientCommandHandler cfg env s = Res.ok s' ∧
      cstr s'.cache_file_path = bytes "cache/" ++ fileNameOf chunk ∧
      (s'.cache_hit = 1 ∧ s'.should_send_cache_file = 1 ∧ s'.should_save_cache_file = 0 ↔
        (s.fs (cstr s'.cache_file_path)).isSome = true) ∧
      (s'.cache_hit = 0 ∧ s'.should_send_cache_file = 0 ∧ s'.should_save_cache_file = 1 ↔
        s.fs (cstr s'.cache_file_path) = none) ∧
      s'.file_transfer_mode = (if chunk.take 5 = bytes "RETR " then 0 else 1) ∧
      s'.trace = s.trace ++ [Sys.write s.server_command_socket chunk] ∧
      s'.fs = s.fs := by
  have hlen2 : chunk.length < BUFFSIZE := by simp [BUFFSIZE]; omega
  have hfit : (cstr (chunk.drop 5)).length ≤ 93 := by
    have h1 : (cstr (chunk.drop 5)).length ≤ (chunk.drop 5).length := by
      unfold cstr
      exact (List.takeWhile_sublist _).length_le
    simp at h1
    omega
  obtain ⟨arr, harr, hpath⟩ := cachePathOf_readBuff chunk (Nat.le_of_lt hlen2) hfit
  have hc := cstr_of_no_nul chunk hnul
  rcases hverb with hv | hv
  · have hv4 : chunk.take 4 = bytes "RETR" := verb_of_take_five chunk 82 69 84 82 32 hv
    have hres := retr_handled cfg env s chunk arr hlen2 hv4 hrd harr
    obtain ⟨f1, f2, f3, f4, f5, f6, f7⟩ :=
      checkCache_flags { s with file_transfer_mode := 0, cache_file_path := arr }
    refine ⟨_, hres, ?_, ?_, ?_, ?_, ?_, ?_⟩
    · simp only [write, f3]; exact hpath
    · simp only [write, f3]; exact f1
    · simp only [write, f3]; exact f2
    · simp only [write, f4, hv, if_true]
    · simp only [write, f5, hc]
    · simp only [write, f6]
  · have hv4 : chunk.take 4 = bytes "STOR" := verb_of_take_five chunk 83 84 79 82 32 hv
    have hres := stor_handled cfg env s chunk arr hlen2 hv4 hrd harr
    obtain ⟨f1, f2, f3, f4, f5, f6, f7⟩ :=
      checkCache_flags { s with file_transfer_mode := 1, cache_file_path := arr }
    have hne : ¬ chunk.take 5 = bytes "RETR " := by rw [hv]; decide
    refine ⟨_, hres, ?_, ?_, ?_, ?_, ?_, ?_⟩
    · simp only [write, f3]; exact hpath
    · simp only [write, f3]; exact f1
    · simp only [write, f3]; exact f2
    · simp only [write, f4, hne, if_false]
    · simp only [write, f5, hc]
    · simp only [write, f6]

/-- C4, witness: with `cache/hello.txt` in the cache, `RETR hello.txt` is a hit
and is forwarded unchanged. -/
theorem cache_decision_witness :
    ∃ s', clientCommandHandler exampleConfig
        (exampleEnv (ReadResult.data (bytes "RETR hello.txt\r\n"))) (sessionState helloCache) =
        Res.ok s' ∧
      cstr s'.cache_file_path = bytes "cache/hello.txt" ∧
      (s'.cache_hit = 1 ∧ s'.should_send_cache_file = 1 ∧ s'.should_save_cache_file = 0) ∧
      s'.file_transfer_mode = 0 ∧
      s'.trace = (sessionState helloCache).trace ++ [Sys.write 5 (bytes "RETR hello.txt\r\n")] := by
  obtain ⟨s', h, hp, hhit, _, hm, ht, _⟩ := cache_decision exampleConfig
    (exampleEnv (ReadResult.data (bytes "RETR hello.txt\r\n"))) (sessionState helloCache)
    (bytes "RETR hello.txt\r\n") (by decide) (by decide) (by decide) rfl
  have hp2 : cstr s'.cache_file_path = bytes "cache/hello.txt" := by rw [hp]; decide
  refine ⟨s', h, hp2, hhit.mpr (by rw [hp2]; decide), by rw [hm]; decide, by rw [ht]; decide⟩

/-- C4, counterexample. A `RETR` chunk with a NUL byte in the name reaches the
server cut at that byte, and one whose name has 92 letters before CR LF makes
`sprintf` write past the end of `cache_file_path`. -/
theorem retr_not_forwarded_unchanged :
    ((clientCommandHandler exampleConfig
        (exampleEnv (ReadResult.data (bytes "RETR a" ++ [0] ++ bytes "b\r\n")))
        (sessionState emptyCache)).toOption.map fun s => written 5 s.trace) =
      some (bytes "RETR a") ∧
    bytes "RETR a" ≠ bytes "RETR a" ++ [0] ++ bytes "b\r\n" ∧
    (clientCommandHandler exampleConfig
        (exampleEnv (ReadResult.data (bytes "RETR " ++ List.replicate 92 97 ++ bytes "\r\n")))
        (sessionState emptyCache)).isUndef = true := by
  decide

/-! ## The cache path -/

theorem stripTrailingEol_clean (name : List Nat) (h : ∀ b ∈ name, b ≠ 0 ∧ b ≠ 10 ∧ b ≠ 13) :
    stripTrailingEol name = name := by
  unfold stripTrailingEol
  cases hr : name.reverse with
  | nil => simp at hr; simp [hr]
  | cons x t =>
    have hx : x ∈ name := by
      have : x ∈ name.reverse := by rw [hr]; simp
      simpa using this
    obtain ⟨_, h10, h13⟩ := h x hx
    rw [List.dropWhile_cons_of_neg (by simp [h10, h13]), ← hr, List.reverse_reverse]

theorem stripTrailingEol_append (name eol : List Nat)
    (h : ∀ b ∈ name, b ≠ 0 ∧ b ≠ 10 ∧ b ≠ 13)
    (heol : eol = [13, 10] ∨ eol = [10] ∨ eol = [13] ∨ eol = []) :
    stripTrailingEol (name ++ eol) = name := by
  have hc := stripTrailingEol_clean name h
  unfold stripTrailingEol at hc ⊢
  rcases heol with e | e | e | e <;> subst e <;> simp [List.dropWhile] <;> simpa using hc

theorem fileNameOf_append (chunk name eol : List Nat) (hd : chunk.drop 5 = name ++ eol)
    (h : ∀ b ∈ name, b ≠ 0 ∧ b ≠ 10 ∧ b ≠ 13)
    (heol : eol = [13, 10] ∨ eol = [10] ∨ eol = [13] ∨ eol = []) :
    fileNameOf chunk = name := by
  unfold fileNameOf
  rw [hd]
  refine (takeWhile_append_of_all name eol ?_ ?_).1
  · intro x hx
    obtain ⟨h0, h10, h13⟩ := h x hx
    simp [h0, h10, h13]
  · intro x t hxt
    rcases heol with e | e | e | e <;> rw [e] at hxt <;> cases hxt <;> decide

/-- C8, as amended. For a chunk shorter than the buffer that begins with
`RETR ` or `STOR ` and has at most 93 bytes between that verb and the first
NUL byte, the cache path is `cache/` followed by the bytes after the five-byte
verb up to the first NUL, LF or CR; no other byte is removed or checked. When
what follows the verb is one name free of NUL, CR and LF and then a line
ending, this is `cache/` followed by that name, as the specification words
it. -/
theorem cache_path_derived (cfg : Config) (env : Env) (s : State) (chunk : List Nat)
    (hverb : chunk.take 5 = bytes "RETR " ∨ chunk.take 5 = bytes "STOR ")
    (hlen : chunk.length < BUFFSIZE) (hfit : (cstr (chunk.drop 5)).length ≤ 93)
    (hrd : env.rd = ReadResult.data chunk) :
    ∃ s', clientCommandHandler cfg env s = Res.ok s' ∧
      cstr s'.cache_file_path = bytes "cache/" ++ fileNameOf chunk ∧
      (∀ name eol, chunk.drop 5 = name ++ eol → (∀ b ∈ name, b ≠ 0 ∧ b ≠ 10 ∧ b ≠ 13) →
        (eol = [13, 10] ∨ eol = [10] ∨ eol = [13] ∨ eol = []) →
        cstr s'.cache_file_path = bytes "cache/" ++ name ∧
          specCachePath chunk = bytes "cache/" ++ name) := by
  obtain ⟨arr, harr, hpath⟩ := cachePathOf_readBuff chunk (Nat.le_of_lt hlen) hfit
  have key : ∀ s' : State, cstr s'.cache_file_path = bytes "cache/" ++ fileNameOf chunk →
      ∀ name eol, chunk.drop 5 = name ++ eol → (∀ b ∈ name, b ≠ 0 ∧ b ≠ 10 ∧ b ≠ 13) →
        (eol = [13, 10] ∨ eol = [10] ∨ eol = [13] ∨ eol = []) →
        cstr s'.cache_file_path = bytes "cache/" ++ name ∧
          specCachePath chunk = bytes "cache/" ++ name := by
    intro s' hs' name eol hd hname heol
    constructor
    · rw [hs', fileNameOf_append chunk name eol hd hname heol]
    · unfold specCachePath
      rw [hd, stripTrailingEol_append name eol hname heol]
  rcases hverb with hv | hv
  · have hv4 : chunk.take 4 = bytes "RETR" := verb_of_take_five chunk 82 69 84 82 32 hv
    have hres := retr_handled cfg env s chunk arr hlen hv4 hrd harr
    obtain ⟨_, _, f3, _⟩ :=
      checkCache_flags { s with file_transfer_mode := 0, cache_file_path := arr }
    have hp : cstr (write s.server_command_socket (cstr chunk)
        (checkCache { s with file_transfer_mode := 0, cache_file_path := arr })).cache_file_path =
        bytes "cache/" ++ fileNameOf chunk := by
      simp only [write, f3]; exact hpath
    exact ⟨_, hres, hp, key _ hp⟩
  · have hv4 : chunk.take 4 = bytes "STOR" := verb_of_take_five chunk 83 84 79 82 32 hv
    have hres := stor_handled cfg env s chunk arr hlen hv4 hrd harr
    obtain ⟨_, _, f3, _⟩ :=
      checkCache_flags { s with file_transfer_mode := 1, cache_file_path := arr }
    have hp : cstr (write s.server_command_socket (cstr chunk)
        (checkCache { s with file_transfer_mode := 1, cache_file_path := arr })).cache_file_path =
        bytes "cache/" ++ fileNameOf chunk := by
      simp only [write, f3]; exact hpath
    exact ⟨_, hres, hp, key _ hp⟩

/-- C8, witness: a name with a blank and a name with `../` are kept whole. -/
theorem cache_path_derived_witness :
    (∃ s', clientCommandHandler exampleConfig
        (exampleEnv (ReadResult.data (bytes "RETR my file.txt\r\n"))) (sessionState emptyCache) =
        Res.ok s' ∧ cstr s'.cache_file_path = bytes "cache/my file.txt") ∧
    (∃ s', clientCommandHandler exampleConfig
        (exampleEnv (ReadResult.data (bytes "STOR ../etc/passwd\r\n"))) (sessionState emptyCache) =
        Res.ok s' ∧ cstr s'.cache_file_path = bytes "cache/../etc/passwd") := by
  constructor
  · obtain ⟨s', h, hp, _⟩ := cache_path_derived exampleConfig
      (exampleEnv (ReadResult.data (bytes "RETR my file.txt\r\n"))) (sessionState emptyCache)
      (bytes "RETR my file.txt\r\n") (by decide) (by decide) (by decide) rfl
    exact ⟨s', h, by rw [hp]; decide⟩
  · obtain ⟨s', h, hp, _⟩ := cache_path_derived exampleConfig
      (exampleEnv (ReadResult.data (bytes "STOR ../etc/passwd\r\n"))) (sessionState emptyCache)
      (bytes "STOR ../etc/passwd\r\n") (by decide) (by decide) (by decide) rfl
    exact ⟨s', h, by rw [hp]; decide⟩

/-- C8, counterexample. For the chunk `RETR a`, CR, LF, `RETR b`, CR, LF the
handler stops at the first CR and derives `cache/a`, while the bytes after the
verb with trailing CR/LF stripped are `a`, CR, LF, `RETR b`. -/
theorem cache_path_cut_at_first_eol :
    ((clientCommandHandler exampleConfig
        (exampleEnv (ReadResult.data (bytes "RETR a\r\nRETR b\r\n")))
        (sessionState emptyCache)).toOption.map fun s => cstr s.cache_file_path) =
      some (bytes "cache/a") ∧
    specCachePath (bytes "RETR a\r\nRETR b\r\n") = bytes "cache/a\r\nRETR b" ∧
    bytes "cache/a" ≠ specCachePath (bytes "RETR a\r\nRETR b\r\n") := by
  decide

/-! ## Replay of a cached file -/

/-- With fuel for one pass more than the file has full blocks, the replay loop
ends; the chunks it writes all go to the chosen socket, none is longer than
`BUFFSIZE - 1`, and together they are the file. -/
theorem replayLoop_spec : ∀ (fuel : Nat) (rest : List Nat) (fd : Int) (s : State),
    rest.length / (BUFFSIZE - 1) < fuel →
    ∃ chunks : List (List Nat),
      replayLoop fuel (Node.file rest) (some fd) s =
        Res.ok { s with trace := s.trace ++ chunks.map (Sys.write fd) } ∧
      chunks.flatten = rest ∧ (∀ c ∈ chunks, c.length ≤ BUFFSIZE - 1) := by
  intro fuel
  induction fuel with
  | zero => intro rest fd s h; exact absurd h (Nat.not_lt_zero _)
  | succ fuel ih =>
    intro rest fd s h
    by_cases hshort : (rest.take (BUFFSIZE - 1)).length < BUFFSIZE - 1
    · refine ⟨[rest.take (BUFFSIZE - 1)], ?_, ?_, ?_⟩
      · simp only [replayLoop, hshort, if_true, write, List.map]
      · have hl : rest.length ≤ BUFFSIZE - 1 := by
          rw [List.length_take] at hshort
          omega
        simp [List.take_of_length_le hl]
      · intro c hc
        simp only [List.mem_singleton] at hc
        subst hc
        exact Nat.le_of_lt hshort
    · have hfull : BUFFSIZE - 1 ≤ rest.length := by
        rw [List.length_take] at hshort
        omega
      have hfuel : (rest.drop (BUFFSIZE - 1)).length / (BUFFSIZE - 1) < fuel := by
        rw [List.length_drop]
        have hb : 0 < BUFFSIZE - 1 := by decide
        have : rest.length / (BUFFSIZE - 1) = (rest.length - (BUFFSIZE - 1)) / (BUFFSIZE - 1) + 1 := by
          rw [← Nat.sub_add_cancel hfull, Nat.add_div_right _ hb]
          simp
        omega
      obtain ⟨chunks, h1, h2, h3⟩ := ih (rest.drop (BUFFSIZE - 1)) fd
        (write fd (rest.take (BUFFSIZE - 1)) s) hfuel
      refine ⟨rest.take (BUFFSIZE - 1) :: chunks, ?_, ?_, ?_⟩
      · simp only [replayLoop, hshort, if_false]
        rw [h1]
        simp [write]
      · simp [h2]
      · intro c hc
        rcases List.mem_cons.mp hc with e | e
        · subst e
          simp
        · exact h3 c e

/-- The hit branch of `sendCacheOrRegister` when the cache file opens: the file
is written chunk by chunk to the socket selected by `file_transfer_mode`, both
data sockets are closed and the two flags are cleared. -/
theorem sendCache_hit (env : Env) (fuel : Nat) (download upload : Int) (s : State)
    (content : List Nat) (hhit : s.cache_hit = 1) (hsend : s.should_send_cache_file = 1)
    (hftm : s.file_transfer_mode = 0 ∨ s.file_transfer_mode = 1)
    (hfile : s.fs (cstr s.cache_file_path) = some (Node.file content))
    (hopen : env.fopen_r = true)
    (hfuel : content.length / (BUFFSIZE - 1) < fuel) :
    ∃ (s' : State) (chunks : List (List Nat)),
      sendCacheOrRegister env fuel download upload s = Res.ok s' ∧
      chunks.flatten = content ∧ (∀ c ∈ chunks, c.length ≤ BUFFSIZE - 1) ∧
      s'.trace = s.trace ++
        chunks.map (Sys.write (if s.file_transfer_mode = 0 then download else upload)) ++
        [Sys.close s.income_data_socket, Sys.close s.outcome_data_socket] ∧
      s'.master_set = s.master_set ∧ s'.cache_hit = 0 ∧ s'.should_send_cache_file = 0 ∧
      s'.should_save_cache_file = s.should_save_cache_file ∧
      s'.income_data_socket = s.income_data_socket ∧
      s'.outcome_data_socket = s.outcome_data_socket ∧ s'.fs = s.fs := by
  have h10 : ¬ ((1 : Int) = 0) := by decide
  rcases hftm with hf | hf
  · obtain ⟨chunks, h1, h2, h3⟩ := replayLoop_spec fuel content download s hfuel
    refine ⟨{ s with
        should_send_cache_file := 0
        cache_hit := 0
        trace := s.trace ++ chunks.map (Sys.write download) ++
          [Sys.close s.income_data_socket, Sys.close s.outcome_data_socket] },
      chunks, ?_, h2, h3, ?_⟩
    · unfold sendCacheOrRegister
      simp only [hhit, hsend, hopen, hfile, hf, h10, if_true, if_false, h1, Res.bind, close]
      simp
    · simp [hf]
  · obtain ⟨chunks, h1, h2, h3⟩ := replayLoop_spec fuel content upload s hfuel
    refine ⟨{ s with
        should_send_cache_file := 0
        cache_hit := 0
        trace := s.trace ++ chunks.map (Sys.write upload) ++
          [Sys.close s.income_data_socket, Sys.close s.outcome_data_socket] },
      chunks, ?_, h2, h3, ?_⟩
    · unfold sendCacheOrRegister
      simp only [hhit, hsend, hopen, hfile, hf, h10, if_true, if_false, h1, Res.bind, close]
      simp
    · simp [hf]

theorem FD_CLR_subset (fd : Int) (s : State) :
    ∀ x ∈ (FD_CLR fd s).master_set, x ∈ s.master_set := by
  intro x hx
  unfold FD_CLR at hx
  exact List.mem_of_mem_filter hx

theorem closeDataSockets_spec (s : State) :
    (closeDataSockets s).trace = s.trace ++
        (if s.income_data_socket > 0 then [Sys.close s.income_data_socket] else []) ++
        (if s.outcome_data_socket > 0 then [Sys.close s.outcome_data_socket] else []) ∧
      (∀ x ∈ (closeDataSockets s).master_set, x ∈ s.master_set) ∧
      (closeDataSockets s).mode = s.mode ∧
      (closeDataSockets s).cache_hit = s.cache_hit ∧
      (closeDataSockets s).should_send_cache_file = s.should_send_cache_file ∧
      (closeDataSockets s).should_save_cache_file = s.should_save_cache_file ∧
      (closeDataSockets s).file_transfer_mode = s.file_transfer_mode ∧
      (closeDataSockets s).cache_file_path = s.cache_file_path ∧
      (closeDataSockets s).fs = s.fs ∧
      (closeDataSockets s).proxy_data_socket = s.proxy_data_socket ∧
      (closeDataSockets s).active_client_data_port = s.active_client_data_port ∧
      (closeDataSockets s).passive_server_data_port = s.passive_server_data_port := by
  unfold closeDataSockets
  by_cases h1 : s.income_data_socket > 0 <;> by_cases h2 : s.outcome_data_socket > 0 <;>
    simp [h1, h2, close, FD_CLR] <;> intro x hx <;> simp_all

/-- The data listener becoming ready in the hit state when the cache file
opens: the file is replayed to one data socket and both are closed without
being registered. -/
theorem listener_replays (cfg : Config) (env : Env) (s : State) (content : List Nat)
    (fd_in fd_out : Int) (fuel : Nat)
    (hhit : s.cache_hit = 1) (hsend : s.should_send_cache_file = 1)
    (hsave : s.should_save_cache_file = 0)
    (hmode : s.mode = 0 ∨ s.mode = 1)
    (hftm : s.file_transfer_mode = 0 ∨ s.file_transfer_mode = 1)
    (hfile : s.fs (cstr s.cache_file_path) = some (Node.file content))
    (hopen : env.fopen_r = true)
    (hacc : env.accepted = some fd_in) (hres : env.resolved = true)
    (hconn : env.connected = some fd_out)
    (hfuel : content.length / (BUFFSIZE - 1) < fuel) :
    ∃ (s' : State) (chunks : List (List Nat)),
      dataListenerHandler cfg env fuel s = Res.ok s' ∧
      chunks.flatten = content ∧ (∀ c ∈ chunks, c.length ≤ 2047) ∧
      s'.trace = s.trace ++
        (if s.income_data_socket > 0 then [Sys.close s.income_data_socket] else []) ++
        (if s.outcome_data_socket > 0 then [Sys.close s.outcome_data_socket] else []) ++
        [Sys.accept s.proxy_data_socket fd_in,
          Sys.connect cfg.server_address
            (htons (if s.mode = 0 then s.active_client_data_port else s.passive_server_data_port))
            fd_out] ++
        chunks.map (Sys.write
          (if s.file_transfer_mode = 0 then (if s.mode = 1 then fd_in else fd_out)
            else (if s.mode = 1 then fd_out else fd_in))) ++
        [Sys.close fd_in, Sys.close fd_out] ∧
      (∀ x ∈ s'.master_set, x ∈ s.master_set) ∧
      s'.cache_hit = 0 ∧ s'.should_send_cache_file = 0 ∧ s'.should_save_cache_file = 0 ∧
      s'.income_data_socket = fd_in ∧ s'.outcome_data_socket = fd_out := by
  obtain ⟨t1, t2, t3, t4, t5, t6, t7, t8, t9, t10, t11, t12⟩ := closeDataSockets_spec s
  unfold dataListenerHandler
  generalize closeDataSockets s = t at t1 t2 t3 t4 t5 t6 t7 t8 t9 t10 t11 t12
  rw [← t3] at hmode
  rw [← t4] at hhit
  rw [← t5] at hsend
  rw [← t6] at hsave
  rw [← t7] at hftm
  rw [← t8, ← t9] at hfile
  have hb : BUFFSIZE - 1 = 2047 := by decide
  have hne10 : ¬ ((1 : Int) = 0) := by decide
  have hbf : ¬ (true = false) := by decide
  rcases hmode with hm | hm
  · obtain ⟨s', chunks, h1, h2, h3, h4, h5, h6, h7, h8, h9, h10, _⟩ :=
      sendCache_hit env fuel fd_out fd_in
        { t with
          income_data_socket := fd_in
          outcome_data_socket := fd_out
          trace := t.trace ++ [Sys.accept t.proxy_data_socket fd_in] ++
            [Sys.connect cfg.server_address (htons t.active_client_data_port) fd_out] }
        content hhit hsend hftm hfile hopen hfuel
    refine ⟨s', chunks, ?_, h2, ?_, ?_, ?_, h6, h7, ?_, h9, h10⟩
    · unfold openDataSockets
      rw [if_pos hm]
      simp only [accept_connection, hacc, Res.bind, create_connection_by_host_name, create_connection,
        hres, hconn, hbf, if_false]
      exact h1
    · rw [← hb]; exact h3
    · rw [h4]
      simp only [t1, t10, t11, t7, ← t3, hm, if_true, hne10, if_false]
      simp
    · rw [h5]; exact t2
    · rw [h8]; exact hsave
  · obtain ⟨s', chunks, h1, h2, h3, h4, h5, h6, h7, h8, h9, h10, _⟩ :=
      sendCache_hit env fuel fd_in fd_out
        { t with
          income_data_socket := fd_in
          outcome_data_socket := fd_out
          trace := t.trace ++ [Sys.accept t.proxy_data_socket fd_in] ++
            [Sys.connect cfg.server_address (htons t.passive_server_data_port) fd_out] }
        content hhit hsend hftm hfile hopen hfuel
    refine ⟨s', chunks, ?_, h2, ?_, ?_, ?_, h6, h7, ?_, h9, h10⟩
    · unfold openDataSockets
      rw [if_neg (by rw [hm]; decide), if_pos hm]
      simp only [accept_connection, hacc, Res.bind, create_connection_by_host_name, create_connection,
        hres, hconn, hbf, if_false]
      exact h1
    · rw [← hb]; exact h3
    · rw [h4]
      simp only [t1, t10, t12, t7, ← t3, hm, if_true, hne10, if_false]
      simp
    · rw [h5]; exact t2
    · rw [h8]; exact hsave

/-- Replay of a regular file. When the data listener becomes ready in the hit
state, the path names a regular file and `fopen` opens it, the replay loop
ends; the chunks it writes, each of at most 2047 bytes, are together the
content of the file; all of them go to the accepted
socket (`data_in`) for `RETR` in passive mode and `STOR` in active mode and to
the connected socket (`data_out`) for `RETR` in active mode and `STOR` in
passive mode; then both sockets are closed, neither having been added to
`master_set`, and the three cache flags are 0. -/
theorem hit_replay (cfg : Config) (env : Env) (s : State) (content : List Nat)
    (fd_in fd_out : Int) (fuel : Nat)
    (hhit : s.cache_hit = 1) (hsend : s.should_send_cache_file = 1)
    (hsave : s.should_save_cache_file = 0)
    (hmode : s.mode = 0 ∨ s.mode = 1)
    (hftm : s.file_transfer_mode = 0 ∨ s.file_transfer_mode = 1)
    (hfile : s.fs (cstr s.cache_file_path) = some (Node.file content))
    (hopen : env.fopen_r = true)
    (hacc : env.accepted = some fd_in) (hres : env.resolved = true)
    (hconn : env.connected = some fd_out)
    (hfuel : content.length / (BUFFSIZE - 1) < fuel) :
    ∃ (s' : State) (chunks : List (List Nat)),
      dataListenerHandler cfg env fuel s = Res.ok s' ∧
      chunks.flatten = content ∧ (∀ c ∈ chunks, c.length ≤ 2047) ∧
      s'.trace = s.trace ++
        (if s.income_data_socket > 0 then [Sys.close s.income_data_socket] else []) ++
        (if s.outcome_data_socket > 0 then [Sys.close s.outcome_data_socket] else []) ++
        [Sys.accept s.proxy_data_socket fd_in,
          Sys.connect cfg.server_address
            (htons (if s.mode = 0 then s.active_client_data_port else s.passive_server_data_port))
            fd_out] ++
        chunks.map (Sys.write
          (if s.file_transfer_mode = 0 then (if s.mode = 1 then fd_in else fd_out)
            else (if s.mode = 1 then fd_out else fd_in))) ++
        [Sys.close fd_in, Sys.close fd_out] ∧
      (∀ x ∈ s'.master_set, x ∈ s.master_set) ∧
      s'.cache_hit = 0 ∧ s'.should_send_cache_file = 0 ∧ s'.should_save_cache_file = 0 ∧
      s'.income_data_socket = fd_in ∧ s'.outcome_data_socket = fd_out :=
  listener_replays cfg env s content fd_in fd_out fuel hhit hsend hsave hmode hftm hfile hopen hacc
    hres hconn hfuel

/-- Replay of `cache/hello.txt`: in passive mode the cached `HELLO` is written
to the accepted socket 7, both data sockets are closed and `master_set` is
unchanged. -/
theorem hit_replay_witness :
    (∃ (s' : State) (chunks : List (List Nat)),
      dataListenerHandler exampleConfig (exampleEnv ReadResult.error) 1 hitState = Res.ok s' ∧
      chunks.flatten = bytes "HELLO" ∧ s'.cache_hit = 0 ∧ s'.should_send_cache_file = 0 ∧
      s'.should_save_cache_file = 0 ∧ ∀ x ∈ s'.master_set, x ∈ hitState.master_set) ∧
    ((dataListenerHandler exampleConfig (exampleEnv ReadResult.error) 1 hitState).toOption.map
      fun s => (s.trace.drop hitState.trace.length, s.master_set)) =
      some ([Sys.accept 6 7, Sys.connect (bytes "ftp.example.org") 10250 8,
        Sys.write 7 (bytes "HELLO"), Sys.close 7, Sys.close 8], [3, 4, 5, 6]) := by
  constructor
  · obtain ⟨s', chunks, h, hc, _, _, hm, h1, h2, h3, _⟩ := hit_replay exampleConfig
      (exampleEnv ReadResult.error) hitState (bytes "HELLO") 7 8 1 rfl rfl rfl (Or.inr rfl)
      (Or.inl rfl) (by decide) rfl rfl rfl rfl (by decide)
    exact ⟨s', chunks, h, hc, h1, h2, h3, hm⟩
  · decide

/-! ## Replay of a path that names a directory -/

theorem replayLoop_dir : ∀ (fuel : Nat) (target : Option Int) (s : State),
    replayLoop fuel Node.dir target s = Res.hang := by
  intro fuel
  induction fuel with
  | zero => intro target s; rfl
  | succ fuel ih =>
    intro target s
    simp only [replayLoop]
    exact ih _ _

theorem sendCache_dir (env : Env) (fuel : Nat) (download upload : Int) (s : State)
    (hhit : s.cache_hit = 1) (hsend : s.should_send_cache_file = 1)
    (hfile : s.fs (cstr s.cache_file_path) = some Node.dir) (hopen : env.fopen_r = true) :
    sendCacheOrRegister env fuel download upload s = Res.hang := by
  have h10 : ¬ ((1 : Int) = 0) := by decide
  unfold sendCacheOrRegister
  simp only [hhit, hsend, hopen, hfile, h10, if_true, replayLoop_dir, Res.bind]
  simp

/-- The data listener becoming ready in the hit state when the path names a
directory that `fopen` opens: whatever the fuel, the replay loop is still
running when it is used up. -/
theorem listener_replay_of_directory (cfg : Config) (env : Env) (s : State)
    (fd_in fd_out : Int) (fuel : Nat)
    (hhit : s.cache_hit = 1) (hsend : s.should_send_cache_file = 1)
    (hmode : s.mode = 0 ∨ s.mode = 1)
    (hfile : s.fs (cstr s.cache_file_path) = some Node.dir) (hopen : env.fopen_r = true)
    (hacc : env.accepted = some fd_in) (hres : env.resolved = true)
    (hconn : env.connected = some fd_out) :
    dataListenerHandler cfg env fuel s = Res.hang := by
  obtain ⟨_, _, t3, t4, t5, _, _, t8, t9, _, _, _⟩ := closeDataSockets_spec s
  unfold dataListenerHandler
  generalize closeDataSockets s = t at t3 t4 t5 t8 t9
  rw [← t3] at hmode
  rw [← t4] at hhit
  rw [← t5] at hsend
  rw [← t8, ← t9] at hfile
  have hbf : ¬ (true = false) := by decide
  unfold openDataSockets
  rcases hmode with hm | hm
  · rw [if_pos hm]
    simp only [accept_connection, hacc, Res.bind, create_connection_by_host_name,
      create_connection, hres, hconn, hbf, if_false]
    exact sendCache_dir env fuel _ _ _ hhit hsend hfile hopen
  · rw [if_neg (by rw [hm]; decide), if_pos hm]
    simp only [accept_connection, hacc, Res.bind, create_connection_by_host_name,
      create_connection, hres, hconn, hbf, if_false]
    exact sendCache_dir env fuel _ _ _ hhit hsend hfile hopen

/-- C6. In a passive-mode session over the empty cache directory, `RETR` with
an empty file name derives the path `cache/`, which names the directory, and
is a hit; when the data listener then becomes ready and `fopen` opens the
directory, the replay loop does not end, whatever the number of passes allowed
to it: no read reaches the end of the file and the two data sockets are never
closed. -/
theorem empty_name_replay_never_ends (fuel : Nat) :
    (emptyNameRetr.toOption.map fun s =>
        (cstr s.cache_file_path, s.fs (cstr s.cache_file_path), s.cache_hit,
          s.should_send_cache_file, s.mode)) =
      some (bytes "cache/", some Node.dir, 1, 1, 1) ∧
    (emptyNameDownload fuel).isHang = true := by
  have hw : (emptyNameRetr.toOption.map fun s =>
      (cstr s.cache_file_path, s.fs (cstr s.cache_file_path), s.cache_hit,
        s.should_send_cache_file, s.mode)) =
      some (bytes "cache/", some Node.dir, 1, 1, 1) := by decide
  refine ⟨hw, ?_⟩
  unfold emptyNameDownload
  cases hr : emptyNameRetr with
  | ok s =>
    rw [hr] at hw
    simp only [Res.toOption, Option.map_some', Option.some.injEq, Prod.mk.injEq] at hw
    obtain ⟨_, hfile, hhit, hsend, hmode⟩ := hw
    simp only [Res.bind]
    rw [listener_replay_of_directory exampleConfig (exampleEnv ReadResult.error) s 7 8 fuel hhit
      hsend (Or.inr hmode) hfile rfl rfl rfl rfl]
    rfl
  | exit c =>
    rw [hr] at hw
    simp [Res.toOption] at hw
  | undef =>
    rw [hr] at hw
    simp [Res.toOption] at hw
  | hang =>
    rw [hr] at hw
    simp [Res.toOption] at hw

/-! ## A new client on the command listener -/

theorem mem_FD_SET (x fd : Int) (s : State) :
    x ∈ (FD_SET fd s).master_set ↔ x ∈ s.master_set ∨ x = fd := by
  unfold FD_SET
  by_cases h : fd ∈ s.master_set
  · simp only [h, if_true]
    constructor
    · intro hx; exact Or.inl hx
    · intro hx
      rcases hx with hx | hx
      · exact hx
      · rw [hx]; exact h
  · simp [h]

theorem data_chunk (b : Bool) (env : Env) (s : State) (c : List Nat) (hc : c ≠ [])
    (hlen : c.length ≤ BUFFSIZE) :
    dataHandler b { env with rd := ReadResult.data c } s =
      Res.ok (saveToCache env.fopen_a c
        (write (if b = true then s.outcome_data_socket else s.income_data_socket) c s)) := by
  have hpos := List.length_pos.mpr hc
  have h0 : ¬ ((c.length : Int) = 0) := by omega
  have h1 : ¬ ((c.length : Int) < 0) := by omega
  cases b <;>
    simp [dataHandler, incomeDataHandler, outcomeDataHandler, readSize, readBytes,
      List.take_of_length_le hlen, h0, h1]

theorem data_eof (b : Bool) (env : Env) (s : State) :
    dataHandler b { env with rd := ReadResult.data [] } s = Res.ok (dataEof s) := by
  cases b <;> simp [dataHandler, incomeDataHandler, outcomeDataHandler, readSize]

theorem dataEof_spec (s : State) :
    (dataEof s).trace = s.trace ++
        [Sys.close s.income_data_socket, Sys.close s.outcome_data_socket] ∧
      (dataEof s).fs = s.fs ∧ (dataEof s).should_save_cache_file = 0 ∧
      (∀ x, x ∈ (dataEof s).master_set ↔
        x ∈ s.master_set ∧ x ≠ s.income_data_socket ∧ x ≠ s.outcome_data_socket) ∧
      (dataEof s).cache_file_path = s.cache_file_path ∧
      (dataEof s).cache_hit = s.cache_hit ∧
      (dataEof s).should_send_cache_file = s.should_send_cache_file ∧
      (dataEof s).mode = s.mode ∧
      (dataEof s).proxy_data_socket = s.proxy_data_socket ∧
      (dataEof s).income_data_socket = s.income_data_socket ∧
      (dataEof s).outcome_data_socket = s.outcome_data_socket ∧
      (dataEof s).server_command_socket = s.server_command_socket ∧
      (dataEof s).active_client_data_port = s.active_client_data_port ∧
      (dataEof s).passive_server_data_port = s.passive_server_data_port := by
  unfold dataEof
  by_cases h : s.should_save_cache_file = 0 <;> simp [h, close, FD_CLR, and_assoc] <;>
    intro x _ <;> tauto

theorem record_step (tgt : Int) (c : List Nat) (s : State) (hsave : s.should_save_cache_file ≠ 0) :
    (saveToCache true c (write tgt c s)).trace = s.trace ++ [Sys.write tgt c] ∧
      (saveToCache true c (write tgt c s)).fs (cstr s.cache_file_path) =
        some (Node.file (fileContent (s.fs (cstr s.cache_file_path)) ++ c)) ∧
      (∀ q, q ≠ cstr s.cache_file_path → (saveToCache true c (write tgt c s)).fs q = s.fs q) ∧
      (saveToCache true c (write tgt c s)).should_save_cache_file = s.should_save_cache_file ∧
      (saveToCache true c (write tgt c s)).master_set = s.master_set ∧
      (saveToCache true c (write tgt c s)).cache_file_path = s.cache_file_path ∧
      (saveToCache true c (write tgt c s)).cache_hit = s.cache_hit ∧
      (saveToCache true c (write tgt c s)).should_send_cache_file = s.should_send_cache_file ∧
      (saveToCache true c (write tgt c s)).mode = s.mode ∧
      (saveToCache true c (write tgt c s)).proxy_data_socket = s.proxy_data_socket ∧
      (saveToCache true c (write tgt c s)).income_data_socket = s.income_data_socket ∧
      (saveToCache true c (write tgt c s)).outcome_data_socket = s.outcome_data_socket ∧
      (saveToCache true c (write tgt c s)).server_command_socket = s.server_command_socket ∧
      (saveToCache true c (write tgt c s)).active_client_data_port = s.active_client_data_port ∧
      (saveToCache true c (write tgt c s)).passive_server_data_port =
        s.passive_server_data_port := by
  simp [saveToCache, write, hsave]
  intro q hq
  simp [hq]

/-- A run of chunks on one data socket, ended by the end of the stream, in a
state that records: every chunk is written unchanged to the other data socket,
the chunks are appended in order to the file named by `cache_file_path`, which
is created by the first of them, and at the end both data sockets are removed
from `master_set` and closed and the recording flag is cleared. -/
theorem feed_spec (b : Bool) (env : Env) :
    ∀ (cs : List (List Nat)) (s : State), (cs ≠ [] → env.fopen_a = true) →
      (∀ c ∈ cs, c ≠ [] ∧ c.length ≤ BUFFSIZE) →
      s.should_save_cache_file ≠ 0 →
      ∃ s', feed b env cs s = Res.ok s' ∧
        s'.trace = s.trace ++
          cs.map (Sys.write (if b = true then s.outcome_data_socket else s.income_data_socket)) ++
          [Sys.close s.income_data_socket, Sys.close s.outcome_data_socket] ∧
        s'.fs (cstr s.cache_file_path) =
          (if cs = [] then s.fs (cstr s.cache_file_path)
            else some (Node.file (fileContent (s.fs (cstr s.cache_file_path)) ++ cs.flatten))) ∧
        (∀ q, q ≠ cstr s.cache_file_path → s'.fs q = s.fs q) ∧
        s'.should_save_cache_file = 0 ∧
        (∀ x, x ∈ s'.master_set ↔
          x ∈ s.master_set ∧ x ≠ s.income_data_socket ∧ x ≠ s.outcome_data_socket) ∧
        s'.cache_file_path = s.cache_file_path ∧ s'.cache_hit = s.cache_hit ∧
        s'.should_send_cache_file = s.should_send_cache_file ∧ s'.mode = s.mode ∧
        s'.proxy_data_socket = s.proxy_data_socket ∧
        s'.income_data_socket = s.income_data_socket ∧
        s'.outcome_data_socket = s.outcome_data_socket ∧
        s'.server_command_socket = s.server_command_socket ∧
        s'.active_client_data_port = s.active_client_data_port ∧
        s'.passive_server_data_port = s.passive_server_data_port := by
  intro cs
  induction cs with
  | nil =>
    intro s _ _ _
    obtain ⟨e1, e2, e3, e4, e5, e6, e7, e8, e9, e10, e11, e12, e13, e14⟩ := dataEof_spec s
    refine ⟨dataEof s, ?_, ?_, ?_, ?_, e3, e4, e5, e6, e7, e8, e9, e10, e11, e12, e13, e14⟩
    · simp only [feed, data_eof]
    · simp [e1]
    · simp [e2]
    · intro q _; rw [e2]
  | cons c cs ih =>
    intro s hopen0 hcs hsave
    have hopen : env.fopen_a = true := hopen0 (by simp)
    obtain ⟨hc, hlen⟩ := hcs c (by simp)
    have hstep : dataHandler b { env with rd := ReadResult.data c } s =
        Res.ok (saveToCache true c
          (write (if b = true then s.outcome_data_socket else s.income_data_socket) c s)) := by
      rw [data_chunk b env s c hc hlen, hopen]
    obtain ⟨r1, r2, r3, r4, r5, r6, r7, r8, r9, r10, r11, r12, r13, r14, r15⟩ :=
      record_step (if b = true then s.outcome_data_socket else s.income_data_socket) c s hsave
    obtain ⟨s', h1, h2, h3, h4, h5, h6, h7, h8, h9, h10, h11, h12, h13, h14, h15, h16⟩ :=
      ih (saveToCache true c
        (write (if b = true then s.outcome_data_socket else s.income_data_socket) c s))
        (fun _ => hopen) (fun c' hc' => hcs c' (by simp [hc'])) (by rw [r4]; exact hsave)
    rw [r6] at h3 h4
    rw [r1, r11, r12] at h2
    rw [r5, r11, r12] at h6
    refine ⟨s', ?_, ?_, ?_, ?_, h5, h6, ?_, ?_, ?_, ?_, ?_, ?_, ?_, ?_, ?_, ?_⟩
    · simp only [feed, hstep, Res.bind]
      exact h1
    · rw [h2]
      simp
    · rw [h3, r2]
      by_cases hnil : cs = []
      · simp [hnil]
      · simp [hnil, fileContent, List.append_assoc]
    · intro q hq
      rw [h4 q hq, r3 q hq]
    · rw [h7, r6]
    · rw [h8, r7]
    · rw [h9, r8]
    · rw [h10, r9]
    · rw [h11, r10]
    · rw [h12, r11]
    · rw [h13, r12]
    · rw [h14, r13]
    · rw [h15, r14]
    · rw [h16, r15]

theorem sendCacheOrRegister_miss (env : Env) (fuel : Nat) (download upload : Int) (s : State)
    (hsend : s.should_send_cache_file = 0) :
    sendCacheOrRegister env fuel download upload s =
      Res.ok (FD_SET s.outcome_data_socket (FD_SET s.income_data_socket s)) := by
  unfold sendCacheOrRegister
  rw [if_neg (by simp [hsend])]

/-- The data listener becoming ready when no cached file is to be sent: the
two new data sockets are registered and nothing about the cache changes. -/
theorem listener_registers (cfg : Config) (env : Env) (fuel : Nat) (s : State)
    (fd_in fd_out : Int) (hsend : s.should_send_cache_file = 0)
    (hmode : s.mode = 0 ∨ s.mode = 1)
    (hacc : env.accepted = some fd_in) (hres : env.resolved = true)
    (hconn : env.connected = some fd_out) :
    ∃ s', dataListenerHandler cfg env fuel s = Res.ok s' ∧
      s'.trace = s.trace ++
        (if s.income_data_socket > 0 then [Sys.close s.income_data_socket] else []) ++
        (if s.outcome_data_socket > 0 then [Sys.close s.outcome_data_socket] else []) ++
        [Sys.accept s.proxy_data_socket fd_in,
          Sys.connect cfg.server_address
            (htons (if s.mode = 0 then s.active_client_data_port else s.passive_server_data_port))
            fd_out] ∧
      s'.income_data_socket = fd_in ∧ s'.outcome_data_socket = fd_out ∧
      fd_in ∈ s'.master_set ∧ fd_out ∈ s'.master_set ∧
      s'.fs = s.fs ∧ s'.cache_file_path = s.cache_file_path ∧
      s'.should_save_cache_file = s.should_save_cache_file ∧
      s'.should_send_cache_file = 0 ∧ s'.cache_hit = s.cache_hit ∧ s'.mode = s.mode ∧
      s'.proxy_data_socket = s.proxy_data_socket ∧
      s'.server_command_socket = s.server_command_socket ∧
      s'.active_client_data_port = s.active_client_data_port ∧
      s'.passive_server_data_port = s.passive_server_data_port := by
  obtain ⟨t1, _, t3, t4, t5, t6, _, t8, t9, t10, t11, t12⟩ := closeDataSockets_spec s
  have tsrv : (closeDataSockets s).server_command_socket = s.server_command_socket := by
    unfold closeDataSockets
    by_cases h1 : s.income_data_socket > 0 <;> by_cases h2 : s.outcome_data_socket > 0 <;>
      simp [h1, h2, close, FD_CLR]
  unfold dataListenerHandler
  generalize closeDataSockets s = t at t1 t3 t4 t5 t6 t8 t9 t10 t11 t12 tsrv
  rw [← t3] at hmode
  rw [← t5] at hsend
  have hne10 : ¬ ((1 : Int) = 0) := by decide
  have hbf : ¬ (true = false) := by decide
  rcases hmode with hm | hm
  · refine ⟨FD_SET fd_out (FD_SET fd_in { t with
        income_data_socket := fd_in
        outcome_data_socket := fd_out
        trace := t.trace ++ [Sys.accept t.proxy_data_socket fd_in] ++
          [Sys.connect cfg.server_address (htons t.active_client_data_port) fd_out] }), ?_, ?_⟩
    · unfold openDataSockets
      rw [if_pos hm]
      simp only [accept_connection, hacc, Res.bind, create_connection_by_host_name, create_connection,
        hres, hconn, hbf, if_false]
      exact sendCacheOrRegister_miss _ _ _ _ _ hsend
    · refine ⟨?_, rfl, rfl, ?_, ?_, ?_, ?_, ?_, ?_, ?_, ?_, ?_, ?_, ?_, ?_⟩
      · simp only [FD_SET, t1, t10, t11, ← t3, hm, if_true]
        simp
      · rw [mem_FD_SET]; exact Or.inl (FD_SET_mem _ _)
      · exact FD_SET_mem _ _
      · simp only [FD_SET, t9]
      · simp only [FD_SET, t8]
      · simp only [FD_SET, t6]
      · simp only [FD_SET, hsend]
      · simp only [FD_SET, t4]
      · simp only [FD_SET, t3]
      · simp only [FD_SET, t10]
      · simp only [FD_SET, tsrv]
      · simp only [FD_SET, t11]
      · simp only [FD_SET, t12]
  · refine ⟨FD_SET fd_out (FD_SET fd_in { t with
        income_data_socket := fd_in
        outcome_data_socket := fd_out
        trace := t.trace ++ [Sys.accept t.proxy_data_socket fd_in] ++
          [Sys.connect cfg.server_address (htons t.passive_server_data_port) fd_out] }), ?_, ?_⟩
    · unfold openDataSockets
      rw [if_neg (by rw [hm]; decide), if_pos hm]
      simp only [accept_connection, hacc, Res.bind, create_connection_by_host_name, create_connection,
        hres, hconn, hbf, if_false]
      exact sendCacheOrRegister_miss _ _ _ _ _ hsend
    · refine ⟨?_, rfl, rfl, ?_, ?_, ?_, ?_, ?_, ?_, ?_, ?_, ?_, ?_, ?_, ?_⟩
      · simp only [FD_SET, t1, t10, t12, ← t3, hm, hne10, if_false]
        simp
      · rw [mem_FD_SET]; exact Or.inl (FD_SET_mem _ _)
      · exact FD_SET_mem _ _
      · simp only [FD_SET, t9]
      · simp only [FD_SET, t8]
      · simp only [FD_SET, t6]
      · simp only [FD_SET, hsend]
      · simp only [FD_SET, t4]
      · simp only [FD_SET, t3]
      · simp only [FD_SET, t10]
      · simp only [FD_SET, tsrv]
      · simp only [FD_SET, t11]
      · simp only [FD_SET, t12]

/-! ## Whole transfers -/

/-- What a `RETR` chunk of at most 98 bytes without NUL does to the session. -/
theorem retr_step (cfg : Config) (env : Env) (s : State) (chunk : List Nat)
    (hverb : chunk.take 5 = bytes "RETR ") (hnul : 0 ∉ chunk) (hlen : chunk.length ≤ 98) :
    ∃ s1, clientCommandHandler cfg { env with rd := ReadResult.data chunk } s = Res.ok s1 ∧
      cstr s1.cache_file_path = bytes "cache/" ++ fileNameOf chunk ∧
      s1.fs = s.fs ∧
      s1.trace = s.trace ++ [Sys.write s.server_command_socket chunk] ∧
      s1.file_transfer_mode = 0 ∧
      (s.fs (bytes "cache/" ++ fileNameOf chunk) = none →
        s1.cache_hit = 0 ∧ s1.should_send_cache_file = 0 ∧ s1.should_save_cache_file = 1) ∧
      ((s.fs (bytes "cache/" ++ fileNameOf chunk)).isSome = true →
        s1.cache_hit = 1 ∧ s1.should_send_cache_file = 1 ∧ s1.should_save_cache_file = 0) ∧
      s1.mode = s.mode ∧ s1.master_set = s.master_set ∧
      s1.proxy_data_socket = s.proxy_data_socket ∧
      s1.income_data_socket = s.income_data_socket ∧
      s1.outcome_data_socket = s.outcome_data_socket ∧
      s1.server_command_socket = s.server_command_socket ∧
      s1.active_client_data_port = s.active_client_data_port ∧
      s1.passive_server_data_port = s.passive_server_data_port := by
  have hlen2 : chunk.length < BUFFSIZE := by simp [BUFFSIZE]; omega
  have hfit : (cstr (chunk.drop 5)).length ≤ 93 := by
    have h1 : (cstr (chunk.drop 5)).length ≤ (chunk.drop 5).length := by
      unfold cstr
      exact (List.takeWhile_sublist _).length_le
    simp at h1
    omega
  obtain ⟨arr, harr, hpath⟩ := cachePathOf_readBuff chunk (Nat.le_of_lt hlen2) hfit
  have hc := cstr_of_no_nul chunk hnul
  have hv4 : chunk.take 4 = bytes "RETR" := verb_of_take_five chunk 82 69 84 82 32 hverb
  have hres := retr_handled cfg { env with rd := ReadResult.data chunk } s chunk arr hlen2 hv4 rfl
    harr
  refine ⟨_, hres, ?_⟩
  rw [hc]
  unfold checkCache
  simp only [hpath]
  cases hfs : s.fs (bytes "cache/" ++ fileNameOf chunk) <;> simp [write, hpath]

theorem written_append (fd : Int) (l1 l2 : List Sys) :
    written fd (l1 ++ l2) = written fd l1 ++ written fd l2 := by
  induction l1 with
  | nil => simp [written]
  | cons e l ih =>
    cases e with
    | write fd2 data =>
      by_cases h : fd2 = fd <;> simp [written, h, ih]
    | close fd2 => simp [written, ih]
    | bindListen p fd2 => simp [written, ih]
    | accept l fd2 => simp [written, ih]
    | connect h p fd2 => simp [written, ih]

theorem written_writes (fd : Int) (cs : List (List Nat)) :
    written fd (cs.map (Sys.write fd)) = cs.flatten := by
  induction cs with
  | nil => simp [written]
  | cons c cs ih => simp [written, ih]

theorem written_close_if (fd x : Int) (p : Prop) [Decidable p] :
    written fd (if p then [Sys.close x] else []) = [] := by
  by_cases h : p <;> simp [h, written]

/-- A download that misses the cache: the `RETR` chunk, the data listener
becoming ready, the chunks from the server on the data socket facing it (the
accepted one in active mode, the connected one in passive mode) and the end of
that stream. -/
theorem download_miss (cfg : Config) (env : Env) (fuel : Nat) (s0 : State)
    (retr : List Nat) (cs : List (List Nat)) (fd_in fd_out : Int)
    (hverb : retr.take 5 = bytes "RETR ") (hnul : 0 ∉ retr) (hlen : retr.length ≤ 98)
    (hmiss : s0.fs (bytes "cache/" ++ fileNameOf retr) = none)
    (hmode : s0.mode = 0 ∨ s0.mode = 1)
    (hacc : env.accepted = some fd_in) (hres : env.resolved = true)
    (hconn : env.connected = some fd_out) (hopen : cs ≠ [] → env.fopen_a = true)
    (hcs : ∀ c ∈ cs, c ≠ [] ∧ c.length ≤ BUFFSIZE) :
    ∃ s1 s2 s3,
      clientCommandHandler cfg { env with rd := ReadResult.data retr } s0 = Res.ok s1 ∧
      dataListenerHandler cfg env fuel s1 = Res.ok s2 ∧
      feed (decide (s0.mode = 0)) env cs s2 = Res.ok s3 ∧
      (s1.cache_hit = 0 ∧ s1.should_send_cache_file = 0 ∧ s1.should_save_cache_file = 1) ∧
      s3.trace = s2.trace ++
        cs.map (Sys.write (if s0.mode = 0 then fd_out else fd_in)) ++
        [Sys.close fd_in, Sys.close fd_out] ∧
      s3.fs (bytes "cache/" ++ fileNameOf retr) =
        (if cs = [] then none else some (Node.file cs.flatten)) ∧
      (∀ q, q ≠ bytes "cache/" ++ fileNameOf retr → s3.fs q = s0.fs q) ∧
      (s3.cache_hit = 0 ∧ s3.should_send_cache_file = 0 ∧ s3.should_save_cache_file = 0) ∧
      (fd_in ∉ s3.master_set ∧ fd_out ∉ s3.master_set) ∧
      s3.mode = s0.mode ∧
      s3.income_data_socket = fd_in ∧ s3.outcome_data_socket = fd_out ∧
      s3.proxy_data_socket = s0.proxy_data_socket ∧
      s3.server_command_socket = s0.server_command_socket ∧
      s3.active_client_data_port = s0.active_client_data_port ∧
      s3.passive_server_data_port = s0.passive_server_data_port := by
  obtain ⟨s1, a1, a2, a3, _, a5, a6, a7, a8, a9, a10, a11, a12, a13, a14, a15⟩ :=
    retr_step cfg env s0 retr hverb hnul hlen
  obtain ⟨ahit, asend, asave⟩ := a6 hmiss
  obtain ⟨s2, b1, _, b3, b4, _, _, b7, b8, b9, b10, b11, b12, b13, b14, b15, b16⟩ :=
    listener_registers cfg env fuel s1 fd_in fd_out asend (by rw [a8]; exact hmode) hacc hres hconn
  obtain ⟨s3, c1, c2, c3, c4, c5, c6, c7, c8, c9, c10, c11, c12, c13, c14, c15, c16⟩ :=
    feed_spec (decide (s0.mode = 0)) env cs s2 hopen hcs (by rw [b9, asave]; decide)
  have hpath : cstr s2.cache_file_path = bytes "cache/" ++ fileNameOf retr := by rw [b8, a2]
  have hfs2 : s2.fs = s0.fs := by rw [b7, a3]
  refine ⟨s1, s2, s3, a1, b1, c1, ⟨ahit, asend, asave⟩, ?_, ?_, ?_, ⟨?_, ?_, c5⟩, ⟨?_, ?_⟩, ?_, ?_, ?_,
    ?_, ?_, ?_, ?_⟩
  · rw [c2, b3, b4]
    by_cases hm : s0.mode = 0 <;> simp [hm]
  · rw [← hpath, c3, hpath, hfs2, hmiss]
    simp [fileContent]
  · intro q hq
    rw [c4 q (by rw [hpath]; exact hq), hfs2]
  · rw [c8, b11, ahit]
  · rw [c9, b10]
  · intro h
    have := (c6 fd_in).mp h
    rw [b3] at this
    exact this.2.1 rfl
  · intro h
    have := (c6 fd_out).mp h
    rw [b4] at this
    exact this.2.2 rfl
  · rw [c10, b12, a8]
  · rw [c12, b3]
  · rw [c13, b4]
  · rw [c11, b13, a10]
  · rw [c14, b14, a13]
  · rw [c15, b15, a14]
  · rw [c16, b16, a15]

/-- C5, as amended. After a `RETR` chunk (at most 98 bytes, no NUL byte) that
misses the cache, for every non-empty sequence of non-empty chunks read from
the data socket facing the server and followed by the end of the stream, with
every opening of the cache file for appending succeeding: each chunk is
written unchanged to the other data socket, in order; at the end the cache
file exists and holds exactly the concatenation of the chunks; both data
sockets are closed and out of `master_set`, and the recording flag is 0. -/
theorem miss_recorded (cfg : Config) (env : Env) (fuel : Nat) (s0 : State)
    (retr : List Nat) (cs : List (List Nat)) (fd_in fd_out : Int)
    (hverb : retr.take 5 = bytes "RETR ") (hnul : 0 ∉ retr) (hlen : retr.length ≤ 98)
    (hmiss : s0.fs (bytes "cache/" ++ fileNameOf retr) = none)
    (hmode : s0.mode = 0 ∨ s0.mode = 1)
    (hacc : env.accepted = some fd_in) (hres : env.resolved = true)
    (hconn : env.connected = some fd_out) (hopen : env.fopen_a = true)
    (hne : cs ≠ []) (hcs : ∀ c ∈ cs, c ≠ [] ∧ c.length ≤ BUFFSIZE) :
    ∃ s1 s2 s3,
      clientCommandHandler cfg { env with rd := ReadResult.data retr } s0 = Res.ok s1 ∧
      dataListenerHandler cfg env fuel s1 = Res.ok s2 ∧
      feed (decide (s0.mode = 0)) env cs s2 = Res.ok s3 ∧
      s3.trace = s2.trace ++
        cs.map (Sys.write (if s0.mode = 0 then fd_out else fd_in)) ++
        [Sys.close fd_in, Sys.close fd_out] ∧
      s3.fs (bytes "cache/" ++ fileNameOf retr) = some (Node.file cs.flatten) ∧
      fd_in ∉ s3.master_set ∧ fd_out ∉ s3.master_set ∧
      s3.should_save_cache_file = 0 := by
  obtain ⟨s1, s2, s3, h1, h2, h3, _, h5, h6, _, h8, h9, _⟩ :=
    download_miss cfg env fuel s0 retr cs fd_in fd_out hverb hnul hlen hmiss hmode hacc hres hconn
      (fun _ => hopen) hcs
  refine ⟨s1, s2, s3, h1, h2, h3, h5, ?_, h9.1, h9.2, h8.2.2⟩
  rw [h6, if_neg hne]

/-- C5, witness: the single chunk `HELLO` is written to the client's socket 7
and leaves `cache/hello.txt` holding `HELLO`. -/
theorem miss_recorded_witness :
    ∃ s1 s2 s3,
      clientCommandHandler exampleConfig
        { exampleEnv ReadResult.error with rd := ReadResult.data (bytes "RETR hello.txt\r\n") }
        (passiveState emptyCache) = Res.ok s1 ∧
      dataListenerHandler exampleConfig (exampleEnv ReadResult.error) 1 s1 = Res.ok s2 ∧
      feed false (exampleEnv ReadResult.error) [bytes "HELLO"] s2 = Res.ok s3 ∧
      s3.trace = s2.trace ++ [Sys.write 7 (bytes "HELLO"), Sys.close 7, Sys.close 8] ∧
      s3.fs (bytes "cache/hello.txt") = some (Node.file (bytes "HELLO")) := by
  obtain ⟨s1, s2, s3, h1, h2, h3, h4, h5, _⟩ := miss_recorded exampleConfig
    (exampleEnv ReadResult.error) 1 (passiveState emptyCache) (bytes "RETR hello.txt\r\n")
    [bytes "HELLO"] 7 8 (by decide) (by decide) (by decide) rfl (Or.inr rfl) rfl rfl rfl rfl
    (by decide) (by decide)
  have e : (if (passiveState emptyCache).mode = 0 then (8 : Int) else 7) = 7 := by decide
  rw [e] at h4
  exact ⟨s1, s2, s3, h1, h2, h3, by rw [h4]; simp, h5⟩

/-- C5, counterexample. For the empty sequence of chunks, the end of the
stream arriving first, no file `cache/hello.txt` exists after the transfer. -/
theorem empty_transfer_leaves_no_file :
    (zeroByteDownload.toOption.map fun s =>
      (s.fs (bytes "cache/hello.txt"), s.should_save_cache_file)) = some (none, 0) := by
  decide

/-! ## The same file requested twice -/

/-- C9, as amended. After a `RETR` that misses the cache and a transfer in
which the server sends no byte before closing the data connection, the cache
file still does not exist (it is created by the first chunk appended), so the
next `RETR` of the same name is a miss again: `cache_hit = 0`,
`should_send_cache_file = 0`, `should_save_cache_file = 1`. -/
theorem zero_byte_download_misses_again (cfg : Config) (env : Env) (fuel : Nat) (s0 : State)
    (retr : List Nat) (fd_in fd_out : Int)
    (hverb : retr.take 5 = bytes "RETR ") (hnul : 0 ∉ retr) (hlen : retr.length ≤ 98)
    (hmiss : s0.fs (bytes "cache/" ++ fileNameOf retr) = none)
    (hmode : s0.mode = 0 ∨ s0.mode = 1)
    (hacc : env.accepted = some fd_in) (hres : env.resolved = true)
    (hconn : env.connected = some fd_out) :
    ∃ s1 s2 s3 s4,
      clientCommandHandler cfg { env with rd := ReadResult.data retr } s0 = Res.ok s1 ∧
      dataListenerHandler cfg env fuel s1 = Res.ok s2 ∧
      feed (decide (s0.mode = 0)) env [] s2 = Res.ok s3 ∧
      s3.fs (bytes "cache/" ++ fileNameOf retr) = none ∧
      clientCommandHandler cfg { env with rd := ReadResult.data retr } s3 = Res.ok s4 ∧
      s4.cache_hit = 0 ∧ s4.should_send_cache_file = 0 ∧ s4.should_save_cache_file = 1 := by
  obtain ⟨s1, s2, s3, h1, h2, h3, _, _, h6, _⟩ :=
    download_miss cfg env fuel s0 retr [] fd_in fd_out hverb hnul hlen hmiss hmode hacc hres hconn
      (fun h => absurd rfl h) (by simp)
  have hnone : s3.fs (bytes "cache/" ++ fileNameOf retr) = none := by rw [h6]; rfl
  obtain ⟨s4, a1, _, _, _, _, a6, _⟩ := retr_step cfg env s3 retr hverb hnul hlen
  obtain ⟨b1, b2, b3⟩ := a6 hnone
  exact ⟨s1, s2, s3, s4, h1, h2, h3, hnone, a1, b1, b2, b3⟩

/-- C9, witness: the zero-byte download of `empty.bin` in passive mode. -/
theorem zero_byte_download_misses_again_witness :
    ∃ s1 s2 s3 s4,
      clientCommandHandler exampleConfig
        { exampleEnv ReadResult.error with rd := ReadResult.data (bytes "RETR empty.bin\r\n") }
        (passiveState emptyCache) = Res.ok s1 ∧
      dataListenerHandler exampleConfig (exampleEnv ReadResult.error) 1 s1 = Res.ok s2 ∧
      feed false (exampleEnv ReadResult.error) [] s2 = Res.ok s3 ∧
      s3.fs (bytes "cache/empty.bin") = none ∧
      clientCommandHandler exampleConfig
        { exampleEnv ReadResult.error with rd := ReadResult.data (bytes "RETR empty.bin\r\n") }
        s3 = Res.ok s4 ∧
      s4.cache_hit = 0 ∧ s4.should_send_cache_file = 0 ∧ s4.should_save_cache_file = 1 :=
  zero_byte_download_misses_again exampleConfig (exampleEnv ReadResult.error) 1
    (passiveState emptyCache) (bytes "RETR empty.bin\r\n") 7 8 (by decide) (by decide)
    (by decide) rfl (Or.inr rfl) rfl rfl rfl

/-- C9, counterexample. After the zero-byte download of `hello.txt` the next
`RETR hello.txt` is classified as a miss, not as a hit: the three flags are
`0, 0, 1`. -/
theorem zero_byte_download_then_miss :
    ((zeroByteDownload.bind (clientCommandHandler exampleConfig
        (exampleEnv (ReadResult.data (bytes "RETR hello.txt\r\n"))))).toOption.map
      fun s => (s.cache_hit, s.should_send_cache_file, s.should_save_cache_file)) =
      some (0, 0, 1) := by
  decide

theorem drop_own_length (l1 l2 : List Sys) : (l1 ++ l2).drop l1.length = l2 := by
  induction l1 with
  | nil => rfl
  | cons a l ih => simp

/-- C7, as amended. For a file absent from the cache and a non-empty stream
that the server sends as non-empty chunks, with the cache file opening for
appending and for reading: the first `RETR` is a miss and the bytes written to
the client's data socket during its transfer are that stream; the second
`RETR` of the same name is a hit and the bytes written to the client's data
socket when the data listener becomes ready again are the same stream. The
client's data socket is the accepted one in passive mode and the connected one
in active mode. -/
theorem repeated_download (cfg : Config) (env : Env) (fuel : Nat) (s0 : State)
    (retr : List Nat) (cs : List (List Nat)) (fd_in fd_out : Int)
    (hverb : retr.take 5 = bytes "RETR ") (hnul : 0 ∉ retr) (hlen : retr.length ≤ 98)
    (hmiss : s0.fs (bytes "cache/" ++ fileNameOf retr) = none)
    (hmode : s0.mode = 0 ∨ s0.mode = 1)
    (hacc : env.accepted = some fd_in) (hres : env.resolved = true)
    (hconn : env.connected = some fd_out)
    (hopen_a : env.fopen_a = true) (hopen_r : env.fopen_r = true)
    (hne : cs ≠ []) (hcs : ∀ c ∈ cs, c ≠ [] ∧ c.length ≤ BUFFSIZE)
    (hfuel : cs.flatten.length / (BUFFSIZE - 1) < fuel) :
    ∃ s1 s2 s3 s4 s5,
      clientCommandHandler cfg { env with rd := ReadResult.data retr } s0 = Res.ok s1 ∧
      dataListenerHandler cfg env fuel s1 = Res.ok s2 ∧
      feed (decide (s0.mode = 0)) env cs s2 = Res.ok s3 ∧
      clientCommandHandler cfg { env with rd := ReadResult.data retr } s3 = Res.ok s4 ∧
      dataListenerHandler cfg env fuel s4 = Res.ok s5 ∧
      (s1.cache_hit = 0 ∧ s1.should_send_cache_file = 0 ∧ s1.should_save_cache_file = 1) ∧
      (s4.cache_hit = 1 ∧ s4.should_send_cache_file = 1 ∧ s4.should_save_cache_file = 0) ∧
      written (if s0.mode = 0 then fd_out else fd_in) (s3.trace.drop s2.trace.length) =
        cs.flatten ∧
      written (if s0.mode = 0 then fd_out else fd_in) (s5.trace.drop s4.trace.length) =
        cs.flatten := by
  obtain ⟨s1, s2, s3, h1, h2, h3, h4, h5, h6, _, _, _, h10, _⟩ :=
    download_miss cfg env fuel s0 retr cs fd_in fd_out hverb hnul hlen hmiss hmode hacc hres hconn
      (fun _ => hopen_a) hcs
  have hfile : s3.fs (bytes "cache/" ++ fileNameOf retr) = some (Node.file cs.flatten) := by
    rw [h6, if_neg hne]
  obtain ⟨s4, a1, a2, a3, _, a5, _, a7, a8, _⟩ := retr_step cfg env s3 retr hverb hnul hlen
  obtain ⟨b1, b2, b3⟩ := a7 (by rw [hfile]; rfl)
  have hmode4 : s4.mode = s0.mode := by rw [a8, h10]
  obtain ⟨s5, chunks, c1, c2, _, c4, _⟩ := listener_replays cfg env s4 cs.flatten fd_in fd_out fuel
    b1 b2 b3 (by rw [hmode4]; exact hmode) (Or.inl a5) (by rw [a3, a2]; exact hfile) hopen_r hacc
    hres hconn hfuel
  refine ⟨s1, s2, s3, s4, s5, h1, h2, h3, a1, c1, h4, ⟨b1, b2, b3⟩, ?_, ?_⟩
  · rw [h5, List.append_assoc, drop_own_length, written_append, written_writes]
    simp [written]
  · rw [c4]
    simp only [List.append_assoc]
    rw [drop_own_length, a5, hmode4]
    simp only [written_append, written_close_if, if_true]
    rcases hmode with hm | hm
    · simp [hm, written, written_writes, c2]
    · simp [hm, written, written_writes, c2]

/-- C7, witness: `HELLO` arriving as `HEL` and `LO` is delivered to socket 7 by
the first download and again by the replay of the second. -/
theorem repeated_download_witness :
    ∃ s1 s2 s3 s4 s5,
      clientCommandHandler exampleConfig
        { exampleEnv ReadResult.error with rd := ReadResult.data (bytes "RETR hello.txt\r\n") }
        (passiveState emptyCache) = Res.ok s1 ∧
      dataListenerHandler exampleConfig (exampleEnv ReadResult.error) 1 s1 = Res.ok s2 ∧
      feed false (exampleEnv ReadResult.error) [bytes "HEL", bytes "LO"] s2 = Res.ok s3 ∧
      clientCommandHandler exampleConfig
        { exampleEnv ReadResult.error with rd := ReadResult.data (bytes "RETR hello.txt\r\n") }
        s3 = Res.ok s4 ∧
      dataListenerHandler exampleConfig (exampleEnv ReadResult.error) 1 s4 = Res.ok s5 ∧
      written 7 (s3.trace.drop s2.trace.length) = bytes "HELLO" ∧
      written 7 (s5.trace.drop s4.trace.length) = bytes "HELLO" := by
  obtain ⟨s1, s2, s3, s4, s5, h1, h2, h3, h4, h5, _, _, h8, h9⟩ := repeated_download exampleConfig
    (exampleEnv ReadResult.error) 1 (passiveState emptyCache) (bytes "RETR hello.txt\r\n")
    [bytes "HEL", bytes "LO"] 7 8 (by decide) (by decide) (by decide) rfl (Or.inr rfl) rfl rfl rfl
    rfl rfl (by decide) (by decide) (by decide)
  exact ⟨s1, s2, s3, s4, s5, h1, h2, h3, h4, h5, h8, h9⟩

/-- C7, counterexample. For the empty stream the second `RETR hello.txt` is
not replayed from the cache: when the data listener becomes ready the two new
data sockets 7 and 8 are registered for splicing and stay open. -/
theorem empty_stream_second_request_spliced :
    (((zeroByteDownload.bind (clientCommandHandler exampleConfig
        (exampleEnv (ReadResult.data (bytes "RETR hello.txt\r\n"))))).bind
      (dataListenerHandler exampleConfig (exampleEnv ReadResult.error) 1)).toOption.map
      fun s => (s.master_set, s.trace.getLast?)) =
      some ([3, 4, 5, 6, 7, 8], some (Sys.connect (bytes "ftp.example.org") 10250 8)) := by
  decide

/-! ## The buffer of the rewritten `227` reply -/

theorem fmtInt_length_octet (v : Int) (h0 : 0 ≤ v) (h1 : v ≤ 255) : (fmtInt v).length ≤ 3 := by
  have hv : ¬ v < 0 := by omega
  unfold fmtInt
  rw [if_neg hv]
  exact fmtNat_length_octet v.toNat (by omega)

/-- C14. For proxy address numbers and server-supplied `p1`, `p2` that all lie
in 0..255, the text that `sprintf` formats for the rewritten reply
`227 Entering Passive Mode (a,b,c,d,p1,p2)\n` is at most 52 bytes long, so with
its terminating NUL it fits the 60 bytes of `response`. -/
theorem pasv_reply_fits_buffer (a b c d p1 p2 : Int)
    (ha : 0 ≤ a ∧ a ≤ 255) (hb : 0 ≤ b ∧ b ≤ 255) (hc : 0 ≤ c ∧ c ≤ 255)
    (hd : 0 ≤ d ∧ d ≤ 255) (hp1 : 0 ≤ p1 ∧ p1 ≤ 255) (hp2 : 0 ≤ p2 ∧ p2 ≤ 255) :
    (sprintf (bytes "227 Entering Passive Mode (%d,%d,%d,%d,%d,%d)\n")
        [Arg.int a, Arg.int b, Arg.int c, Arg.int d, Arg.int p1, Arg.int p2]).length ≤ 52 ∧
      (sprintf (bytes "227 Entering Passive Mode (%d,%d,%d,%d,%d,%d)\n")
        [Arg.int a, Arg.int b, Arg.int c, Arg.int d, Arg.int p1, Arg.int p2]).length + 1 ≤ 60 := by
  have e : sprintf (bytes "227 Entering Passive Mode (%d,%d,%d,%d,%d,%d)\n")
      [Arg.int a, Arg.int b, Arg.int c, Arg.int d, Arg.int p1, Arg.int p2] =
      bytes "227 Entering Passive Mode (" ++ fmtInt a ++ [44] ++ fmtInt b ++ [44] ++ fmtInt c ++
        [44] ++ fmtInt d ++ [44] ++ fmtInt p1 ++ [44] ++ fmtInt p2 ++ [41, 10] := by
    simp [sprintf, bytes]
  have h1 := fmtInt_length_octet a ha.1 ha.2
  have h2 := fmtInt_length_octet b hb.1 hb.2
  have h3 := fmtInt_length_octet c hc.1 hc.2
  have h4 := fmtInt_length_octet d hd.1 hd.2
  have h5 := fmtInt_length_octet p1 hp1.1 hp1.2
  have h6 := fmtInt_length_octet p2 hp2.1 hp2.2
  rw [e]
  simp [bytes]
  omega

/-- C14, witness: with all six numbers 255 the reply is exactly 52 bytes
long. -/
theorem pasv_reply_fits_buffer_witness :
    ((sprintf (bytes "227 Entering Passive Mode (%d,%d,%d,%d,%d,%d)\n")
        [Arg.int 255, Arg.int 255, Arg.int 255, Arg.int 255, Arg.int 255, Arg.int 255]).length
        ≤ 52 ∧
      (sprintf (bytes "227 Entering Passive Mode (%d,%d,%d,%d,%d,%d)\n")
        [Arg.int 255, Arg.int 255, Arg.int 255, Arg.int 255, Arg.int 255, Arg.int 255]).length
        + 1 ≤ 60) ∧
    (sprintf (bytes "227 Entering Passive Mode (%d,%d,%d,%d,%d,%d)\n")
        [Arg.int 255, Arg.int 255, Arg.int 255, Arg.int 255, Arg.int 255, Arg.int 255]).length
        = 52 :=
  ⟨pasv_reply_fits_buffer 255 255 255 255 255 255 (by decide) (by decide) (by decide)
    (by decide) (by decide) (by decide), by decide⟩

/-! ## Exit status -/

theorem bind_exit {α β : Type} (r : Res α) (f : α → Res β) (c : Int)
    (h : r.bind f = Res.exit c) : r = Res.exit c ∨ ∃ a, r = Res.ok a ∧ f a = Res.exit c := by
  cases r with
  | ok a => exact Or.inr ⟨a, rfl, h⟩
  | exit c2 =>
    simp only [Res.bind, Res.exit.injEq] at h
    exact Or.inl (by rw [h])
  | undef => simp [Res.bind] at h
  | hang => simp [Res.bind] at h

theorem bind_and_listen_exit (env : Env) (port : Int) (s : State) (c : Int)
    (h : bind_and_listen_socket env port s = Res.exit c) : c = 1 := by
  unfold bind_and_listen_socket at h
  cases hl : env.listening <;> simp [hl] at h
  exact h.symm

theorem accept_exit (env : Env) (fd : Int) (s : State) (c : Int)
    (h : accept_connection env fd s = Res.exit c) : c = 1 := by
  unfold accept_connection at h
  cases hl : env.accepted <;> simp [hl] at h
  exact h.symm

theorem connect_exit (env : Env) (host : List Nat) (port : Int) (s : State) (c : Int)
    (h : create_connection_by_host_name env host port s = Res.exit c) :
    c = 1 ∨ (c = 0 ∧ env.resolved = false) := by
  unfold create_connection_by_host_name create_connection at h
  cases hr : env.resolved <;> cases hl : env.connected <;> simp [hr, hl] at h
  · exact Or.inr ⟨h.symm, rfl⟩
  · exact Or.inr ⟨h.symm, rfl⟩
  · exact Or.inl h.symm

theorem replayLoop_no_exit : ∀ (fuel : Nat) (node : Node) (target : Option Int) (s : State)
    (c : Int), replayLoop fuel node target s ≠ Res.exit c := by
  intro fuel
  induction fuel with
  | zero => intro node target s c h; simp [replayLoop] at h
  | succ fuel ih =>
    intro node target s c h
    cases node with
    | dir =>
      simp only [replayLoop] at h
      exact ih _ _ _ _ h
    | file rest =>
      simp only [replayLoop] at h
      split at h
      · simp at h
      · exact ih _ _ _ _ h

theorem sendCacheOrRegister_no_exit (env : Env) (fuel : Nat) (d u : Int) (s : State) (c : Int) :
    sendCacheOrRegister env fuel d u s ≠ Res.exit c := by
  intro h
  unfold sendCacheOrRegister at h
  split at h
  · rcases bind_exit _ _ _ h with h1 | ⟨a, _, h2⟩
    · split at h1
      · rcases bind_exit _ _ _ h1 with h3 | ⟨a, _, h4⟩
        · exact replayLoop_no_exit _ _ _ _ _ h3
        · simp at h4
      · simp at h1
    · simp at h2
  · simp at h

theorem portBranch_exit (cfg : Config) (env : Env) (buff : List Nat) (s : State) (c : Int)
    (h : portBranch cfg env buff s = Res.exit c) : c = 1 := by
  unfold portBranch at h
  split at h
  · rcases bind_exit _ _ _ h with h1 | ⟨a, _, h2⟩
    · exact bind_and_listen_exit _ _ _ _ h1
    · dsimp only at h2
      split at h2 <;> simp at h2
  · simp at h

theorem pasvReplyBranch_exit (cfg : Config) (env : Env) (buff : List Nat) (s : State) (c : Int)
    (h : pasvReplyBranch cfg env buff s = Res.exit c) : c = 1 := by
  unfold pasvReplyBranch at h
  split at h
  · rcases bind_exit _ _ _ h with h1 | ⟨a, _, h2⟩
    · exact bind_and_listen_exit _ _ _ _ h1
    · dsimp only at h2
      split at h2 <;> simp at h2
  · simp at h

theorem clientCommandHandler_exit (cfg : Config) (env : Env) (s : State) (c : Int)
    (h : clientCommandHandler cfg env s = Res.exit c) : c = 1 := by
  unfold clientCommandHandler at h
  dsimp only at h
  split at h
  · simp at h
  · split at h
    · simp at h
    · split at h
      · exact portBranch_exit _ _ _ _ _ h
      · split at h
        · simp [pasvBranch] at h
        · split at h
          · unfold retrBranch at h
            split at h <;> simp at h
          · split at h
            · unfold storBranch at h
              split at h <;> simp at h
            · simp at h

theorem serverCommandHandler_exit (cfg : Config) (env : Env) (s : State) (c : Int)
    (h : serverCommandHandler cfg env s = Res.exit c) : c = 1 := by
  unfold serverCommandHandler at h
  dsimp only at h
  split at h
  · simp at h
  · split at h
    · simp at h
    · split at h
      · exact pasvReplyBranch_exit _ _ _ _ _ h
      · simp at h

theorem proxyCommandHandler_exit (cfg : Config) (env : Env) (s : State) (c : Int)
    (h : proxyCommandHandler cfg env s = Res.exit c) :
    c = 1 ∨ (c = 0 ∧ env.resolved = false) := by
  unfold proxyCommandHandler at h
  rcases bind_exit _ _ _ h with h1 | ⟨a, _, h2⟩
  · exact Or.inl (accept_exit _ _ _ _ h1)
  · rcases bind_exit _ _ _ h2 with h3 | ⟨b, _, h4⟩
    · exact connect_exit _ _ _ _ _ h3
    · simp at h4

theorem openDataSockets_exit (cfg : Config) (env : Env) (fuel : Nat) (s : State) (c : Int)
    (h : openDataSockets cfg env fuel s = Res.exit c) :
    c = 1 ∨ (c = 0 ∧ env.resolved = false) := by
  unfold openDataSockets at h
  split at h
  · rcases bind_exit _ _ _ h with h1 | ⟨a, _, h2⟩
    · exact Or.inl (accept_exit _ _ _ _ h1)
    · rcases bind_exit _ _ _ h2 with h3 | ⟨b, _, h4⟩
      · exact connect_exit _ _ _ _ _ h3
      · exact absurd h4 (sendCacheOrRegister_no_exit _ _ _ _ _ _)
  · split at h
    · rcases bind_exit _ _ _ h with h1 | ⟨a, _, h2⟩
      · exact Or.inl (accept_exit _ _ _ _ h1)
      · rcases bind_exit _ _ _ h2 with h3 | ⟨b, _, h4⟩
        · exact connect_exit _ _ _ _ _ h3
        · exact absurd h4 (sendCacheOrRegister_no_exit _ _ _ _ _ _)
    · simp at h

theorem dataHandlers_no_exit (env : Env) (s : State) (c : Int) :
    incomeDataHandler env s ≠ Res.exit c ∧ outcomeDataHandler env s ≠ Res.exit c := by
  constructor
  · intro h
    unfold incomeDataHandler at h
    split at h
    · simp at h
    · split at h <;> simp at h
  · intro h
    unfold outcomeDataHandler at h
    split at h
    · simp at h
    · split at h <;> simp at h

/-- Every way in which one pass of the loop ends the process: with status 1,
or with status 0 when the host name of the server does not resolve. -/
theorem loopPass_exit (cfg : Config) (fuel : Nat) (selectResult : Int) (ev : Event) (env : Env)
    (s : State) (c : Int) (h : loopPass cfg fuel selectResult ev env s = Res.exit c) :
    c = 1 ∨ (c = 0 ∧ env.resolved = false ∧
      (ev = Event.commandListener ∨ ev = Event.dataListener)) := by
  unfold loopPass at h
  split at h
  · simp at h
    exact Or.inl h.symm
  · split at h
    · simp at h
      exact Or.inl h.symm
    · unfold handle at h
      cases ev with
      | commandListener =>
        rcases proxyCommandHandler_exit _ _ _ _ h with h1 | ⟨h1, h2⟩
        · exact Or.inl h1
        · exact Or.inr ⟨h1, h2, Or.inl rfl⟩
      | clientCommand => exact Or.inl (clientCommandHandler_exit _ _ _ _ h)
      | serverCommand => exact Or.inl (serverCommandHandler_exit _ _ _ _ h)
      | dataListener =>
        rcases openDataSockets_exit _ _ _ _ _ h with h1 | ⟨h1, h2⟩
        · exact Or.inl h1
        · exact Or.inr ⟨h1, h2, Or.inr rfl⟩
      | incomeData => exact absurd h (dataHandlers_no_exit _ _ _).1
      | outcomeData => exact absurd h (dataHandlers_no_exit _ _ _).2

/-- C11. When the host name of the server does not resolve, the process ends
with status 0, not 1: on the command listener after a client was accepted,
and on the data listener after the data connection was accepted. The other
ends of the process (a wrong argument count, a listener that cannot be
opened, a failed or idle `select`, a failed `accept`, a failed `connect`) have
status 1. -/
theorem dns_failure_exits_with_status_zero :
    (loopPass exampleConfig 1 1 Event.commandListener
        { exampleEnv ReadResult.error with resolved := false }
        (initialState 3 0 0 emptyCache)).exitCode = some 0 ∧
      (loopPass exampleConfig 1 1 Event.dataListener
        { exampleEnv ReadResult.error with resolved := false }
        (passiveState emptyCache)).exitCode = some 0 ∧
      (mainStart 2 (exampleEnv ReadResult.error) 0 0 emptyCache).exitCode = some 1 ∧
      (mainStart 4 (exampleEnv ReadResult.error) 0 0 emptyCache).exitCode = some 1 ∧
      (mainStart 3 { exampleEnv ReadResult.error with listening := none } 0 0
        emptyCache).exitCode = some 1 ∧
      (loopPass exampleConfig 1 (-1) Event.commandListener (exampleEnv ReadResult.error)
        (initialState 3 0 0 emptyCache)).exitCode = some 1 ∧
      (loopPass exampleConfig 1 0 Event.commandListener (exampleEnv ReadResult.error)
        (initialState 3 0 0 emptyCache)).exitCode = some 1 ∧
      (loopPass exampleConfig 1 1 Event.commandListener
        { exampleEnv ReadResult.error with accepted := none }
        (initialState 3 0 0 emptyCache)).exitCode = some 1 ∧
      (loopPass exampleConfig 1 1 Event.commandListener
        { exampleEnv ReadResult.error with connected := none }
        (initialState 3 0 0 emptyCache)).exitCode = some 1 := by
  decide

/-! ## The mode and the awaited reply along a session -/

theorem bind_ok {α β : Type} (r : Res α) (f : α → Res β) (b : β)
    (h : r.bind f = Res.ok b) : ∃ a, r = Res.ok a ∧ f a = Res.ok b := by
  cases r with
  | ok a => exact ⟨a, rfl, h⟩
  | exit c => simp [Res.bind] at h
  | undef => simp [Res.bind] at h
  | hang => simp [Res.bind] at h

theorem bind_and_listen_ok (env : Env) (port : Int) (s : State) (r : Int × State)
    (h : bind_and_listen_socket env port s = Res.ok r) :
    env.listening = some r.1 ∧
      r.2 = { s with trace := s.trace ++ [Sys.bindListen (htons port) r.1] } := by
  unfold bind_and_listen_socket at h
  cases hl : env.listening with
  | none => simp [hl] at h
  | some fd =>
    simp only [hl, Res.ok.injEq] at h
    subst h
    exact ⟨rfl, rfl⟩

theorem accept_ok (env : Env) (fd : Int) (s : State) (r : Int × State)
    (h : accept_connection env fd s = Res.ok r) :
    env.accepted = some r.1 ∧ r.2 = { s with trace := s.trace ++ [Sys.accept fd r.1] } := by
  unfold accept_connection at h
  cases hl : env.accepted with
  | none => simp [hl] at h
  | some fd =>
    simp only [hl, Res.ok.injEq] at h
    subst h
    exact ⟨rfl, rfl⟩

theorem connect_ok (env : Env) (host : List Nat) (port : Int) (s : State) (r : Int × State)
    (h : create_connection_by_host_name env host port s = Res.ok r) :
    env.connected = some r.1 ∧
      r.2 = { s with trace := s.trace ++ [Sys.connect host (htons port) r.1] } := by
  unfold create_connection_by_host_name create_connection at h
  split at h
  · simp at h
  · cases hl : env.connected with
    | none => simp [hl] at h
    | some fd =>
      simp only [hl, Res.ok.injEq] at h
      subst h
      exact ⟨rfl, rfl⟩

theorem portBranch_awaiting (cfg : Config) (env : Env) (buff : List Nat) (s s' : State)
    (h : portBranch cfg env buff s = Res.ok s') :
    s'.waiting_for_server_data_port = s.waiting_for_server_data_port := by
  unfold portBranch at h
  split at h
  · obtain ⟨r, h1, h2⟩ := bind_ok _ _ _ h
    obtain ⟨_, h3⟩ := bind_and_listen_ok _ _ _ _ h1
    dsimp only at h2
    split at h2
    · simp at h2
    · simp only [Res.ok.injEq] at h2
      subst h2
      rw [h3]
      simp only [send_to_server, write, FD_SET]
      split <;> simp [close, FD_CLR]
  · simp at h

theorem pasvReplyBranch_awaiting (cfg : Config) (env : Env) (buff : List Nat) (s s' : State)
    (h : pasvReplyBranch cfg env buff s = Res.ok s') :
    s'.waiting_for_server_data_port = 0 := by
  unfold pasvReplyBranch at h
  split at h
  · obtain ⟨r, h1, h2⟩ := bind_ok _ _ _ h
    obtain ⟨_, h3⟩ := bind_and_listen_ok _ _ _ _ h1
    dsimp only at h2
    split at h2
    · simp at h2
    · simp only [Res.ok.injEq] at h2
      subst h2
      rw [h3]
      simp only [send_to_client, write, FD_SET]
      split <;> simp [close, FD_CLR]
  · simp at h

theorem checkCache_session (s : State) :
    (checkCache s).mode = s.mode ∧
      (checkCache s).waiting_for_server_data_port = s.waiting_for_server_data_port := by
  unfold checkCache
  split <;> exact ⟨rfl, rfl⟩

theorem clientCommandHandler_session (cfg : Config) (env : Env) (s s' : State)
    (h : clientCommandHandler cfg env s = Res.ok s') :
    (s'.mode = s.mode ∧ s'.waiting_for_server_data_port = s.waiting_for_server_data_port) ∨
      s'.mode = 1 ∨
      (isPortCommand Event.clientCommand env = true ∧
        s'.waiting_for_server_data_port = s.waiting_for_server_data_port) := by
  unfold clientCommandHandler at h
  dsimp only at h
  split at h
  · simp only [Res.ok.injEq] at h
    subst h
    exact Or.inl ⟨rfl, rfl⟩
  · split at h
    · simp at h
    · split at h
      · rename_i hp
        exact Or.inr (Or.inr ⟨by simp [isPortCommand, hp], portBranch_awaiting _ _ _ _ _ h⟩)
      · split at h
        · simp only [pasvBranch, Res.ok.injEq] at h
          subst h
          exact Or.inr (Or.inl rfl)
        · split at h
          · unfold retrBranch at h
            split at h
            · simp at h
            · simp only [Res.ok.injEq] at h
              subst h
              exact Or.inl (checkCache_session _)
          · split at h
            · unfold storBranch at h
              split at h
              · simp at h
              · simp only [Res.ok.injEq] at h
                subst h
                exact Or.inl (checkCache_session _)
            · simp only [Res.ok.injEq] at h
              subst h
              exact Or.inl ⟨rfl, rfl⟩

theorem serverCommandHandler_session (cfg : Config) (env : Env) (s s' : State)
    (h : serverCommandHandler cfg env s = Res.ok s') :
    (s'.mode = s.mode ∧ s'.waiting_for_server_data_port = s.waiting_for_server_data_port) ∨
      s'.waiting_for_server_data_port = 0 := by
  unfold serverCommandHandler at h
  dsimp only at h
  split at h
  · simp only [Res.ok.injEq] at h
    subst h
    exact Or.inl ⟨rfl, rfl⟩
  · split at h
    · simp at h
    · split at h
      · exact Or.inr (pasvReplyBranch_awaiting _ _ _ _ _ h)
      · simp only [Res.ok.injEq] at h
        subst h
        exact Or.inl ⟨rfl, rfl⟩

theorem proxyCommandHandler_session (cfg : Config) (env : Env) (s s' : State)
    (h : proxyCommandHandler cfg env s = Res.ok s') :
    s'.mode = s.mode ∧ s'.waiting_for_server_data_port = s.waiting_for_server_data_port := by
  unfold proxyCommandHandler at h
  obtain ⟨a, h1, h2⟩ := bind_ok _ _ _ h
  obtain ⟨_, h3⟩ := accept_ok _ _ _ _ h1
  obtain ⟨c, h4, h5⟩ := bind_ok _ _ _ h2
  obtain ⟨_, h6⟩ := connect_ok _ _ _ _ _ h4
  simp only [Res.ok.injEq] at h5
  subst h5
  rw [h6, h3]
  simp only [FD_SET]
  constructor <;> (split <;> split <;> simp [close, FD_CLR])

theorem replayLoop_session : ∀ (fuel : Nat) (node : Node) (target : Option Int)
    (s s' : State), replayLoop fuel node target s = Res.ok s' →
    s'.mode = s.mode ∧ s'.waiting_for_server_data_port = s.waiting_for_server_data_port := by
  intro fuel
  induction fuel with
  | zero => intro node target s s' h; simp [replayLoop] at h
  | succ fuel ih =>
    intro node target s s' h
    cases node with
    | dir =>
      simp only [replayLoop] at h
      obtain ⟨h1, h2⟩ := ih _ _ _ _ h
      rw [h1, h2]
      cases target <;> exact ⟨rfl, rfl⟩
    | file rest =>
      simp only [replayLoop] at h
      split at h
      · simp only [Res.ok.injEq] at h
        subst h
        cases target <;> exact ⟨rfl, rfl⟩
      · obtain ⟨h1, h2⟩ := ih _ _ _ _ h
        rw [h1, h2]
        cases target <;> exact ⟨rfl, rfl⟩

theorem sendCacheOrRegister_session (env : Env) (fuel : Nat) (d u : Int) (s s' : State)
    (h : sendCacheOrRegister env fuel d u s = Res.ok s') :
    s'.mode = s.mode ∧ s'.waiting_for_server_data_port = s.waiting_for_server_data_port := by
  unfold sendCacheOrRegister at h
  split at h
  · obtain ⟨a, h1, h2⟩ := bind_ok _ _ _ h
    simp only [Res.ok.injEq] at h2
    subst h2
    split at h1
    · obtain ⟨b, h3, h4⟩ := bind_ok _ _ _ h1
      simp only [Res.ok.injEq] at h4
      subst h4
      have h5 := replayLoop_session _ _ _ _ _ h3
      simpa [close] using h5
    · simp only [Res.ok.injEq] at h1
      subst h1
      exact ⟨rfl, rfl⟩
  · simp only [Res.ok.injEq] at h
    subst h
    exact ⟨rfl, rfl⟩

theorem closeDataSockets_session (s : State) :
    (closeDataSockets s).mode = s.mode ∧
      (closeDataSockets s).waiting_for_server_data_port = s.waiting_for_server_data_port := by
  by_cases h1 : s.income_data_socket > 0 <;> by_cases h2 : s.outcome_data_socket > 0 <;>
    simp [closeDataSockets, h1, h2, close, FD_CLR]

theorem openDataSockets_session (cfg : Config) (env : Env) (fuel : Nat) (s s' : State)
    (h : openDataSockets cfg env fuel s = Res.ok s') :
    s'.mode = s.mode ∧ s'.waiting_for_server_data_port = s.waiting_for_server_data_port := by
  unfold openDataSockets at h
  split at h
  · obtain ⟨a, h1, h2⟩ := bind_ok _ _ _ h
    obtain ⟨_, h3⟩ := accept_ok _ _ _ _ h1
    obtain ⟨c, h4, h5⟩ := bind_ok _ _ _ h2
    obtain ⟨_, h6⟩ := connect_ok _ _ _ _ _ h4
    obtain ⟨h7, h8⟩ := sendCacheOrRegister_session _ _ _ _ _ _ h5
    rw [h7, h8, h6, h3]
    exact ⟨rfl, rfl⟩
  · split at h
    · obtain ⟨a, h1, h2⟩ := bind_ok _ _ _ h
      obtain ⟨_, h3⟩ := accept_ok _ _ _ _ h1
      obtain ⟨c, h4, h5⟩ := bind_ok _ _ _ h2
      obtain ⟨_, h6⟩ := connect_ok _ _ _ _ _ h4
      obtain ⟨h7, h8⟩ := sendCacheOrRegister_session _ _ _ _ _ _ h5
      rw [h7, h8, h6, h3]
      exact ⟨rfl, rfl⟩
    · simp only [Res.ok.injEq] at h
      subst h
      exact ⟨rfl, rfl⟩

theorem dataEof_session (s : State) :
    (dataEof s).mode = s.mode ∧
      (dataEof s).waiting_for_server_data_port = s.waiting_for_server_data_port := by
  by_cases h1 : s.should_save_cache_file = 0 <;> simp [dataEof, h1, close, FD_CLR]

theorem saveToCache_session (opened : Bool) (data : List Nat) (s : State) :
    (saveToCache opened data s).mode = s.mode ∧
      (saveToCache opened data s).waiting_for_server_data_port =
        s.waiting_for_server_data_port := by
  unfold saveToCache
  constructor <;> (split <;> try split) <;> rfl

theorem dataHandlers_session (env : Env) (s s' : State)
    (h : incomeDataHandler env s = Res.ok s' ∨ outcomeDataHandler env s = Res.ok s') :
    s'.mode = s.mode ∧ s'.waiting_for_server_data_port = s.waiting_for_server_data_port := by
  rcases h with h | h
  · unfold incomeDataHandler at h
    split at h
    · simp only [Res.ok.injEq] at h
      subst h
      exact dataEof_session s
    · split at h
      · simp at h
      · simp only [Res.ok.injEq] at h
        subst h
        exact saveToCache_session _ _ _
  · unfold outcomeDataHandler at h
    split at h
    · simp only [Res.ok.injEq] at h
      subst h
      exact dataEof_session s
    · split at h
      · simp at h
      · simp only [Res.ok.injEq] at h
        subst h
        exact saveToCache_session _ _ _

/-- One handler keeps `waiting_for_server_data_port == 1` within passive mode
unless it handles a `PORT` command while the flag is set. -/
theorem handle_awaiting (cfg : Config) (fuel : Nat) (ev : Event) (env : Env) (s s' : State)
    (h : handle cfg fuel ev env s = Res.ok s')
    (hg : (isPortCommand ev env && decide (s.waiting_for_server_data_port = 1)) = false)
    (hinv : s.waiting_for_server_data_port = 1 → s.mode = 1) :
    s'.waiting_for_server_data_port = 1 → s'.mode = 1 := by
  intro hw
  cases ev with
  | commandListener =>
    obtain ⟨h1, h2⟩ := proxyCommandHandler_session _ _ _ _ h
    rw [h1]
    exact hinv (by rw [← h2]; exact hw)
  | clientCommand =>
    rcases clientCommandHandler_session _ _ _ _ h with ⟨h1, h2⟩ | h1 | ⟨h1, h2⟩
    · rw [h1]
      exact hinv (by rw [← h2]; exact hw)
    · exact h1
    · have h3 : s.waiting_for_server_data_port = 1 := by rw [← h2]; exact hw
      rw [h1, h3] at hg
      simp at hg
  | serverCommand =>
    rcases serverCommandHandler_session _ _ _ _ h with ⟨h1, h2⟩ | h1
    · rw [h1]
      exact hinv (by rw [← h2]; exact hw)
    · rw [h1] at hw
      exact absurd hw (by decide)
  | dataListener =>
    obtain ⟨h1, h2⟩ := openDataSockets_session _ _ _ _ _ h
    obtain ⟨h3, h4⟩ := closeDataSockets_session s
    rw [h1, h3]
    exact hinv (by rw [← h4, ← h2]; exact hw)
  | incomeData =>
    obtain ⟨h1, h2⟩ := dataHandlers_session _ _ _ (Or.inl h)
    rw [h1]
    exact hinv (by rw [← h2]; exact hw)
  | outcomeData =>
    obtain ⟨h1, h2⟩ := dataHandlers_session _ _ _ (Or.inr h)
    rw [h1]
    exact hinv (by rw [← h2]; exact hw)

theorem run_awaiting (cfg : Config) (fuel : Nat) : ∀ (evs : List (Event × Env)) (s s' : State),
    noPortWhileAwaiting cfg fuel evs s = true →
    (s.waiting_for_server_data_port = 1 → s.mode = 1) →
    run cfg fuel evs s = Res.ok s' →
    s'.waiting_for_server_data_port = 1 → s'.mode = 1 := by
  intro evs
  induction evs with
  | nil =>
    intro s s' _ hinv h
    simp only [run, Res.ok.injEq] at h
    subst h
    exact hinv
  | cons e rest ih =>
    intro s s' hg hinv h
    simp only [run] at h
    obtain ⟨t, h1, h2⟩ := bind_ok _ _ _ h
    simp only [noPortWhileAwaiting, h1, Bool.and_eq_true, Bool.not_eq_true'] at hg
    exact ih t s' hg.2 (handle_awaiting cfg fuel e.1 e.2 s t h1 hg.1 hinv) h2

/-- C12, as amended. In every state reachable from the initial state by a
sequence of events (client commands and server replies among them) in which
no `PORT` command is handled while `waiting_for_server_data_port` is 1,
`waiting_for_server_data_port == 1` implies `mode == 1`. -/
theorem awaiting_implies_passive (cfg : Config) (fuel : Nat) (evs : List (Event × Env))
    (listener active passive : Int) (fs : List Nat → Option Node) (s : State)
    (hguard : noPortWhileAwaiting cfg fuel evs (initialState listener active passive fs) = true)
    (hrun : run cfg fuel evs (initialState listener active passive fs) = Res.ok s) :
    s.waiting_for_server_data_port = 1 → s.mode = 1 :=
  run_awaiting cfg fuel evs (initialState listener active passive fs) s hguard
    (fun h => absurd h (by simp [initialState])) hrun

/-- C12, witness: a session in which `PORT` follows the `227` reply and a
second `PASV` follows the `PORT` ends awaiting a reply in passive mode. -/
theorem awaiting_implies_passive_witness :
    ∃ s, run exampleConfig 1
        [clientConnects, clientSends "PASV\r\n",
          serverSends "227 Entering Passive Mode (10,0,0,9,40,10)\r\n",
          clientSends "PORT 10,0,0,5,8,1\r\n", clientSends "PASV\r\n"]
        (initialState 3 0 0 emptyCache) = Res.ok s ∧
      s.waiting_for_server_data_port = 1 ∧ s.mode = 1 := by
  have hg : noPortWhileAwaiting exampleConfig 1
      [clientConnects, clientSends "PASV\r\n",
        serverSends "227 Entering Passive Mode (10,0,0,9,40,10)\r\n",
        clientSends "PORT 10,0,0,5,8,1\r\n", clientSends "PASV\r\n"]
      (initialState 3 0 0 emptyCache) = true := by decide
  have hw : ((run exampleConfig 1
      [clientConnects, clientSends "PASV\r\n",
        serverSends "227 Entering Passive Mode (10,0,0,9,40,10)\r\n",
        clientSends "PORT 10,0,0,5,8,1\r\n", clientSends "PASV\r\n"]
      (initialState 3 0 0 emptyCache)).toOption.map
      fun s => s.waiting_for_server_data_port) = some 1 := by decide
  cases hr : run exampleConfig 1
      [clientConnects, clientSends "PASV\r\n",
        serverSends "227 Entering Passive Mode (10,0,0,9,40,10)\r\n",
        clientSends "PORT 10,0,0,5,8,1\r\n", clientSends "PASV\r\n"]
      (initialState 3 0 0 emptyCache) with
  | ok s =>
    rw [hr] at hw
    simp only [Res.toOption, Option.map_some', Option.some.injEq] at hw
    exact ⟨s, rfl, hw, awaiting_implies_passive exampleConfig 1 _ 3 0 0 emptyCache s hg hr hw⟩
  | exit c =>
    rw [hr] at hw
    simp [Res.toOption] at hw
  | undef =>
    rw [hr] at hw
    simp [Res.toOption] at hw
  | hang =>
    rw [hr] at hw
    simp [Res.toOption] at hw

/-- C12, counterexample. A client connects and sends `PASV` and then
`PORT 10,0,0,5,8,1` before the server replied: the state reached has
`waiting_for_server_data_port == 1` and `mode == 0`. -/
theorem port_after_pasv_awaits_in_active_mode :
    ((run exampleConfig 1
        [clientConnects, clientSends "PASV\r\n", clientSends "PORT 10,0,0,5,8,1\r\n"]
        (initialState 3 0 0 emptyCache)).toOption.map
      fun s => (s.waiting_for_server_data_port, s.mode)) = some (1, 0) := by
  decide

/-! ## The descriptor variables after a close -/

/-- C13. The variables of closed descriptors are not reset to 0. After the
client connected (descriptors 4 and 5) and its command socket reached the end
of its stream, both command sockets are out of `master_set` and their
variables still hold 4 and 5; the next client on the command listener makes
the `> 0` guards close 4 and 5 a second time. After a download that ended
with the end of the stream on a data socket, and after the replay of a cached
file, the variables of the two data sockets still hold 7 and 8 and neither is
in `master_set`. When the data connection of a download arrives after the
client disconnected and gets the freed descriptors 4 and 5, the variables of
the command sockets and of the data sockets hold the same two registered
descriptors. -/
theorem closed_descriptor_fields_keep_their_values :
    ((run exampleConfig 1 [clientConnects, endOfStream Event.clientCommand]
        (initialState 3 0 0 emptyCache)).toOption.map registration) =
      some [(4, false), (5, false), (0, false), (0, false), (0, false)] ∧
    ((run exampleConfig 1 [clientConnects, endOfStream Event.clientCommand, clientConnects]
        (initialState 3 0 0 emptyCache)).toOption.map fun s => s.trace) =
      some [Sys.bindListen 21 3, Sys.accept 3 4, Sys.connect (bytes "ftp.example.org") 21 5,
        Sys.close 4, Sys.close 5, Sys.close 4, Sys.close 5,
        Sys.accept 3 4, Sys.connect (bytes "ftp.example.org") 21 5] ∧
    ((run exampleConfig 1
        [clientConnects, clientSends "PASV\r\n",
          serverSends "227 Entering Passive Mode (10,0,0,9,40,10)\r\n",
          clientSends "RETR hello.txt\r\n", dataConnects, endOfStream Event.outcomeData]
        (initialState 3 0 0 emptyCache)).toOption.map registration) =
      some [(4, true), (5, true), (6, true), (7, false), (8, false)] ∧
    ((run exampleConfig 1
        [clientConnects, clientSends "PASV\r\n",
          serverSends "227 Entering Passive Mode (10,0,0,9,40,10)\r\n",
          clientSends "RETR hello.txt\r\n", dataConnects]
        (initialState 3 0 0 helloCache)).toOption.map registration) =
      some [(4, true), (5, true), (6, true), (7, false), (8, false)] ∧
    ((run exampleConfig 1
        [clientConnects, clientSends "PASV\r\n",
          serverSends "227 Entering Passive Mode (10,0,0,9,40,10)\r\n",
          clientSends "RETR hello.txt\r\n", endOfStream Event.clientCommand,
          dataConnectsReusing]
        (initialState 3 0 0 emptyCache)).toOption.map registration) =
      some [(4, true), (5, true), (6, true), (4, true), (5, true)] := by
  decide

end FtpProxy
